import Mathlib

/-!
Shallow embedding of the browser-driven OAuth sign-in drivers of the
repository (src/sign_in_with_github.py, src/sign_in_with_linuxdo.py) and of
the provider configuration parser (src/utils/config.py).

Browser effects are modelled by an environment record (one field per awaited
browser-engine call site); each driver's `signin` coroutine becomes a total
function from that environment to an outcome together with a trace of the
observable side effects (screenshots, storage-state saves, secret-channel
requests, passive waits, challenge waits, page/context closes).
-/

/-- A captured browser cookie, as handed around by the drivers. -/
structure Cookie where
  name : String
  value : String
  domain : String
  path : String
deriving Repr, DecidableEq

/-- Observable side effects emitted by a driver run, in program order. -/
inductive Event where
  | screenshot (reason : String)
  | savePageContent (reason : String)
  | saveStorage (path : String)
  | secretRequest (timeoutSec : Nat)
  | passiveWait (ms : Nat)
  | challengeWait (timeoutMs : Nat)
  | pageClose
  | contextClose
deriving Repr, DecidableEq

/-- The dictionary part of the value returned by `signin`. -/
inductive RetDict where
  | error (msg : String)
  | userResult (cookies : List Cookie) (apiUser : String)
  | queryParams (params : List (String × List String))
deriving Repr, DecidableEq

/-- How a `signin` call completes: a returned `(bool, dict)` pair, or an
exception escaping the driver boundary. -/
inductive Outcome where
  | ret (ok : Bool) (d : RetDict)
  | raised (e : String)
deriving Repr, DecidableEq

/-- Python truthiness-flavoured return pair `(成功标志, 结果字典)`. -/
abbrev Ret := Bool × RetDict

/-!  String primitives. Core's `String.splitOn` and friends are defined by
well-founded recursion and do not reduce inside the kernel, so the string
operations the embedding needs are (re)implemented structurally over
`List Char`. -/

/-- Boolean prefix test on character lists. -/
def listIsPrefix : List Char → List Char → Bool
  | [], _ => true
  | _ :: _, [] => false
  | a :: as, b :: bs => a == b && listIsPrefix as bs

/-- Python's `s.startswith(pat)` / Playwright's `url.startswith(origin)`. -/
def strStartsWith (s pat : String) : Bool :=
  listIsPrefix pat.data s.data

/-- Boolean suffix test. -/
def strEndsWith (s pat : String) : Bool :=
  listIsPrefix pat.data.reverse s.data.reverse

/-- Fuel-driven split of a character list on a nonempty pattern, scanning
left to right over non-overlapping occurrences. The fuel is an upper bound
on the input length, so the `0` case is never reached at the call site. -/
def splitOnAuxF (pat : List Char) : Nat → List Char → List Char → List (List Char)
  | 0, s, acc => [acc.reverse ++ s]
  | _, [], acc => [acc.reverse]
  | fuel + 1, c :: rest, acc =>
    if pat.isEmpty = false ∧ listIsPrefix pat (c :: rest) then
      acc.reverse :: splitOnAuxF pat fuel (List.drop (pat.length - 1) rest) []
    else splitOnAuxF pat fuel rest (c :: acc)

/-- Python's `s.split(pat)` for a nonempty pattern (also the behaviour of
`str.split` used implicitly through `urlparse`). -/
def splitStr (s pat : String) : List String :=
  (splitOnAuxF pat.data (s.data.length + 1) s.data []).map String.mk

/-- Concatenation with a separator, structurally. -/
def joinSep (sep : String) (parts : List String) : String :=
  match parts with
  | [] => ""
  | [p] => p
  | p :: rest => p ++ sep ++ joinSep sep rest

/-- Value of a hex digit, as used by percent-decoding. -/
def hexVal (c : Char) : Option Nat :=
  if '0' ≤ c ∧ c ≤ '9' then some (c.toNat - '0'.toNat)
  else if 'a' ≤ c ∧ c ≤ 'f' then some (c.toNat - 'a'.toNat + 10)
  else if 'A' ≤ c ∧ c ≤ 'F' then some (c.toNat - 'A'.toNat + 10)
  else none

/-- Percent-decoding of `%XY` escapes (code-point level; multi-byte UTF-8
escape sequences are outside the inputs the claims exercise). An invalid
escape is left literal, as in CPython's `unquote`. -/
def pctDecode : List Char → List Char
  | [] => []
  | '%' :: a :: b :: rest =>
    match hexVal a, hexVal b with
    | some ha, some hb => Char.ofNat (16 * ha + hb) :: pctDecode rest
    | _, _ => '%' :: pctDecode (a :: b :: rest)
  | c :: rest => c :: pctDecode rest

/-- `urllib.parse.unquote_plus`: `+` becomes a space, then percent escapes
are decoded. -/
def unquotePlus (s : String) : String :=
  String.mk (pctDecode (s.toList.map (fun c => if c = '+' then ' ' else c)))

/-- The `query` component of `urllib.parse.urlparse(url)`: the fragment is
everything after the first `#`, and the query is everything after the first
`?` of what precedes the fragment. -/
def urlQuery (url : String) : String :=
  let noFrag := (splitStr url "#").headD ""
  match splitStr noFrag "?" with
  | [] => ""
  | [_] => ""
  | _ :: rest => joinSep "?" rest

/-- `urllib.parse.parse_qsl` with its default arguments
(`keep_blank_values=False`, `strict_parsing=False`, separator `&`): fields
are split on `&`; a field without `=` or with an empty value is skipped;
names and values are unquoted. -/
def parse_qsl (qs : String) : List (String × String) :=
  (splitStr qs "&").filterMap fun nv =>
    if nv = "" then none
    else
      match splitStr nv "=" with
      | [] => none
      | [_] => none
      | nm :: rest =>
        let v := joinSep "=" rest
        if v = "" then none
        else some (unquotePlus nm, unquotePlus v)

/-- `urllib.parse.parse_qs`: aggregates `parse_qsl` pairs into a map from
each key to the list of its values, in first-occurrence order. -/
def parse_qs (qs : String) : List (String × List String) :=
  (parse_qsl qs).foldl
    (fun acc p =>
      if acc.any (fun q => q.1 == p.1) then
        acc.map (fun q => if q.1 == p.1 then (q.1, q.2 ++ [p.2]) else q)
      else acc ++ [(p.1, [p.2])])
    []

/-- Python's `"code" in query_params` membership test on the parsed map. -/
def hasQueryKey (qp : List (String × List String)) (k : String) : Bool :=
  qp.any (fun p => p.1 == k)

/-- Python's `pat in s` substring test, via splitting on the pattern. -/
def strContains (s pat : String) : Bool :=
  (splitStr s pat).length != 1

/-- Modelled from the spec: the host component of the relying-party origin
(scheme stripped, then anything from the first `/` or `:` on). The code that
computes it lives in `utils/browser_utils.py`, which is not under src/. -/
def originHost (origin : String) : String :=
  let rest :=
    match splitStr origin "://" with
    | [] => origin
    | [s] => s
    | _ :: r => joinSep "://" r
  (splitStr ((splitStr rest "/").headD "") ":").headD ""

/-- Modelled from the spec: a cookie domain matches when it equals the
origin's host exactly or is a suffix (registrable parent domain) of it
(spec §3 CapturedCookie, §4.2 CookieScoper). The implementation
`utils/browser_utils.py` is not under src/. -/
def domainMatches (cookieDomain host : String) : Bool :=
  cookieDomain == host || strEndsWith host cookieDomain

/-- Modelled from the spec: `filter_cookies` (CookieScoper, §4.2) returns the
subset of its input whose domain matches the origin's host exactly or as a
parent domain; pure and order-preserving. The implementation
`utils/browser_utils.py` is not under src/; only its call sites are. -/
def filter_cookies (cookies : List Cookie) (origin : String) : List Cookie :=
  cookies.filter (fun c => domainMatches c.domain (originHost origin))

/-!  src/utils/config.py: `ProviderConfig` and `ProviderConfig.from_dict`. -/

/-- An opaque Python value stored in a provider-config dict. -/
inductive PyVal where
  | str (s : String)
  | bool (b : Bool)
deriving Repr, DecidableEq

/-- A Python dict of config data: association list, first binding wins. -/
abbrev PyDict := List (String × PyVal)

/-- Python's `data.get(k)`: the value bound to `k`, if any. -/
def dget (d : PyDict) (k : String) : Option PyVal :=
  (d.find? (fun p => p.1 == k)).map (fun p => p.2)

/-- The fields of `ProviderConfig` that `from_dict` populates
(src/utils/config.py lines 14-31). -/
structure ProviderConfig where
  name : String
  origin : PyVal
  login_path : PyVal
  status_path : PyVal
  auth_state_path : PyVal
  sign_in_path : PyVal
  user_info_path : PyVal
  api_user_key : PyVal
  github_client_id : Option PyVal
  github_auth_path : PyVal
  linuxdo_client_id : Option PyVal
  linuxdo_auth_path : PyVal
  aliyun_captcha : PyVal
  bypass_method : Option PyVal
deriving Repr, DecidableEq

/-- `ProviderConfig.from_dict` (src/utils/config.py lines 33-56). `none`
models the `KeyError` raised by `data["origin"]` when the key is absent.
Note line 53 of the source: `linuxdo_auth_path` is populated from the
`github_auth_path` key of the dict. -/
def ProviderConfig.from_dict (name : String) (data : PyDict) :
    Option ProviderConfig :=
  match dget data "origin" with
  | none => none
  | some o =>
    some
      { name := name
        origin := o
        login_path := (dget data "login_path").getD (.str "/login")
        status_path := (dget data "status_path").getD (.str "/api/status")
        auth_state_path := (dget data "auth_state_path").getD (.str "api/oauth/state")
        sign_in_path := (dget data "sign_in_path").getD (.str "/api/user/sign_in")
        user_info_path := (dget data "user_info_path").getD (.str "/api/user/self")
        api_user_key := (dget data "api_user_key").getD (.str "new-api-user")
        github_client_id := dget data "github_client_id"
        github_auth_path := (dget data "github_auth_path").getD (.str "/api/oauth/github")
        linuxdo_client_id := dget data "linuxdo_client_id"
        linuxdo_auth_path := (dget data "github_auth_path").getD (.str "/api/oauth/linuxdo")
        aliyun_captcha := (dget data "aliyun_captcha").getD (.bool false)
        bypass_method := dget data "bypass_method" }

/-!  src/sign_in_with_github.py — `GitHubSignIn.signin`.

Each field of `GEnv` is the outcome the browser engine supplies to one
awaited call site of `signin` (an `Except` value when the call can raise).
`page.close()` / `context.close()` in the `finally` block are modelled as
non-failing teardown. The two `_save_page_content_to_file` calls at
lines 147 (github) are invoked without `await` in the source and therefore
have no effect, so they emit no event. -/

structure GEnv where
  /-- `os.path.exists(cache_file_path)` (lines 119, 141). -/
  cacheExists : Bool
  /-- entering `async with AsyncCamoufox(...)` (line 111). -/
  launch : Except String Unit
  /-- `browser.new_context(storage_state=...)` (line 125). -/
  newContext : Except String Unit
  /-- `context.add_cookies(auth_cookies)` (line 129). -/
  addCookies : Except String Unit
  /-- `context.new_page()` (line 134). -/
  newPage : Except String Unit
  /-- cache probe `page.goto(oauth_url)` (line 145): response URL, `none`
  for a `None` response. -/
  probeGoto : Except String (Option String)
  /-- probe `page.query_selector('button[type="submit"]')` (line 155). -/
  probeQueryBtn : Except String Bool
  /-- probe `authorize_btn.click()` (line 161). Unused by the model: the
  flag `is_logged_in` is set before the click and a click failure is
  swallowed by the probe's `except` with no data effect. -/
  probeClickBtn : Except String Unit
  /-- `page.goto("https://github.com/login")` (line 172). -/
  gotoLogin : Except String Unit
  /-- `page.fill("#login_field", username)` (line 173). -/
  fillUser : Except String Unit
  /-- `page.fill("#password", password)` (line 174). -/
  fillPass : Except String Unit
  /-- `page.click('input[type="submit"]...')` (line 175). -/
  clickSignin : Except String Unit
  /-- `page.query_selector('form[action="/switch_account"]')` (line 182). -/
  querySwitchForm : Except String Bool
  /-- `switch_account_form.query_selector('input[type="submit"]')` (line 185). -/
  querySwitchBtn : Except String Bool
  /-- account-selection `submit_btn.click()` (line 188). -/
  clickSwitchBtn : Except String Unit
  /-- `page.query_selector('input[name="otp"]')` (line 199). -/
  queryOtpInput : Except String Bool
  /-- `page.url` before OTP submission (line 204). -/
  currentUrl : String
  /-- `WaitForSecrets().get(..., timeout=5, ...)` (lines 212-226): the OTP
  entry of the returned secrets, `none` when absent. -/
  secretGet : Except String (Option String)
  /-- `otp_input.fill(otp_code)` (line 236). -/
  fillOtp : Except String Unit
  /-- `page.wait_for_url(lambda url: url != current_url, 10000)` (line 258).
  Unused by the model: the surrounding `except` swallows any outcome
  (`pass`) and nothing downstream reads it. -/
  waitUrlChange : Except String Unit
  /-- `context.storage_state(path=cache_file_path)` (line 270). -/
  saveStorage : Except String Unit
  /-- post-login `page.goto(oauth_url)` (line 281): response URL. -/
  authGoto : Except String (Option String)
  /-- post-login `page.query_selector('button[type="submit"]')` (line 289). -/
  authQueryBtn : Except String Bool
  /-- post-login `authorize_btn.click()` (line 294). -/
  authClickBtn : Except String Unit
  /-- `page.wait_for_url("**origin/oauth/**", 30000)` (line 305). -/
  waitOauthUrl : Except String Unit
  /-- `page.wait_for_function('localStorage.getItem("user") !== null', 10000)`
  (line 311). Unused by the model: its failure only triggers a 5 s wait. -/
  waitUserFn : Except String Unit
  /-- `page.evaluate("() => localStorage.getItem('user')")` (line 315). -/
  evalUser : Except String (Option String)
  /-- `json.loads(user_data)` then `.get("id")` (lines 317-318): the id when
  present and truthy, applied only to a non-null `user_data`. -/
  parseUserId : Except String (Option String)
  /-- `context.cookies()` (line 332). -/
  ctxCookies : Except String (List Cookie)
  /-- `page.url` at the identity-fallback point (line 340). -/
  finalUrl : String
deriving Repr

/-- `if response and response.url.startswith(origin)` (lines 150, 285). -/
def respInOrigin (origin : String) : Option String → Bool
  | some u => strStartsWith u origin
  | none => false

/-- The OTP obtained through wait-for-secrets: `secrets["OTP"]` when the
call succeeded and returned one, else `None` (lines 208-231; an exception
is caught and leaves `otp_code = None`). -/
def gOtpCode (env : GEnv) : Option String :=
  match env.secretGet with
  | .ok (some c) => some c
  | _ => none

/-- The cache probe (lines 141-165): classifies the session as logged-in.
Any exception inside is swallowed by the `except` at line 164, leaving
whatever value `is_logged_in` already has. -/
def githubProbe (env : GEnv) (origin : String) : Bool :=
  match env.probeGoto with
  | .error _ => false
  | .ok respOpt =>
    if respInOrigin origin respOpt then true
    else
      match env.probeQueryBtn with
      | .error _ => false
      | .ok b => b

/-- The account-selection interstitial (lines 181-194): events it emits.
Every exception inside is swallowed at line 193. -/
def githubAccountSelect (env : GEnv) : List Event :=
  match env.querySwitchForm with
  | .error _ => []
  | .ok false => []
  | .ok true =>
    match env.querySwitchBtn with
    | .error _ => []
    | .ok false => []
    | .ok true =>
      match env.clickSwitchBtn with
      | .error _ => []
      | .ok _ => [.savePageContent "account_selected"]

/-- The two-factor block (lines 196-267): events it emits. Exceptions are
swallowed at line 266; the wait for the URL to change after OTP submission
(lines 257-261) is swallowed by `except: pass` and has no effect. -/
def githubTwoFactor (env : GEnv) : List Event :=
  match env.queryOtpInput with
  | .error _ => []
  | .ok false => []
  | .ok true =>
    match gOtpCode env with
    | some _ =>
      .secretRequest 5 ::
        (match env.fillOtp with
         | .error _ => []
         | .ok _ => [.savePageContent "otp_filled"])
    | none => [.secretRequest 5, .passiveWait 30000]

/-- The fresh-login region (lines 169-276): `some r` means the region
returned `r` early (its `except` at line 273), `none` means it completed
and the flow continues. -/
def githubLoginRegion (env : GEnv) (cachePath : String) :
    Option Ret × List Event :=
  let err : Option Ret × List Event :=
    (some (false, .error "GitHub sign-in error"), [.screenshot "github_signin_error"])
  match env.gotoLogin with
  | .error _ => err
  | .ok _ =>
  match env.fillUser with
  | .error _ => err
  | .ok _ =>
  match env.fillPass with
  | .error _ => err
  | .ok _ =>
  match env.clickSignin with
  | .error _ => err
  | .ok _ =>
    let evs := Event.savePageContent "sign_in_result" ::
      (githubAccountSelect env ++ githubTwoFactor env)
    match env.saveStorage with
    | .error _ =>
      (some (false, .error "GitHub sign-in error"),
        evs ++ [.screenshot "github_signin_error"])
    | .ok _ => (none, evs ++ [.saveStorage cachePath])

/-- The post-login authorization navigation (lines 278-300): `some r` means
an early return through the `except` at line 297. -/
def githubAuthNav (env : GEnv) (origin : String) : Option Ret × List Event :=
  let err : Option Ret × List Event :=
    (some (false, .error "GitHub authorization approval failed"),
      [.screenshot "github_auth_approval_failed"])
  match env.authGoto with
  | .error _ => err
  | .ok respOpt =>
    if respInOrigin origin respOpt then (none, [])
    else
      match env.authQueryBtn with
      | .error _ => err
      | .ok true =>
        (match env.authClickBtn with
         | .error _ => err
         | .ok _ => (none, []))
      | .ok false => (none, [])

/-- The user id extracted from `localStorage` (lines 307-326): `none` when
the object is absent, unparsable, or carries no truthy id. -/
def githubApiUser (env : GEnv) : Option String :=
  match env.evalUser with
  | .error _ => none
  | .ok none => none
  | .ok (some _) =>
    match env.parseUserId with
    | .error _ => none
    | .ok idOpt => idOpt

/-- The unified authorization region (lines 302-359), run on both the cached
and the fresh-login path. -/
def githubFinalize (env : GEnv) (origin : String) : Ret × List Event :=
  match env.waitOauthUrl with
  | .error _ =>
    ((false, .error "GitHub authorization failed"),
      [.screenshot "github_authorization_failed"])
  | .ok _ =>
    match githubApiUser env with
    | some id =>
      match env.ctxCookies with
      | .error _ =>
        ((false, .error "GitHub authorization failed"),
          [.screenshot "github_authorization_failed"])
      | .ok cookies =>
        ((true, .userResult (filter_cookies cookies origin) id), [])
    | none =>
      let qp := parse_qs (urlQuery env.finalUrl)
      if hasQueryKey qp "code" then
        ((true, .queryParams qp), [.screenshot "github_oauth_failed_no_user_id"])
      else
        ((false, .error "GitHub OAuth failed - no code in callback"),
          [.screenshot "github_oauth_failed_no_user_id"])

/-- The fresh-login path (lines 168-359 with `is_logged_in` false): login
region, authorization navigation, then the unified authorization region. -/
def githubFresh (env : GEnv) (origin cachePath : String) : Ret × List Event :=
  match githubLoginRegion env cachePath with
  | (some r, evs) => (r, evs)
  | (none, evs) =>
    match githubAuthNav env origin with
    | (some r, evs2) => (r, evs ++ evs2)
    | (none, evs2) =>
      let (r, evs3) := githubFinalize env origin
      (r, evs ++ evs2 ++ evs3)

/-- The body of the outer `try` (lines 136-359). All awaited calls inside it
sit in inner `try` regions, so the body always returns a `(bool, dict)`
pair; the catch-all at line 361 is unreachable under this environment
model. -/
def githubBody (env : GEnv) (origin cachePath : String) : Ret × List Event :=
  let isLoggedIn := if env.cacheExists then githubProbe env origin else false
  if isLoggedIn then githubFinalize env origin
  else githubFresh env origin cachePath

/-- `GitHubSignIn.signin` (lines 88-367). Browser launch, context creation,
cookie seeding and page creation happen before the `try`/`finally`
(lines 111-134): an exception there escapes the driver (only the
`async with` tears the browser down) and no close event is emitted. -/
def githubSignin (env : GEnv) (origin : String) (authCookies : List Cookie)
    (cachePath : String) : Outcome × List Event :=
  match env.launch with
  | .error e => (.raised e, [])
  | .ok _ =>
  match env.newContext with
  | .error e => (.raised e, [])
  | .ok _ =>
  match (if authCookies.isEmpty then Except.ok () else env.addCookies) with
  | .error e => (.raised e, [])
  | .ok _ =>
  match env.newPage with
  | .error e => (.raised e, [])
  | .ok _ =>
    let (r, evs) := githubBody env origin cachePath
    (.ret r.1 r.2, evs ++ [.pageClose, .contextClose])

/-!  src/sign_in_with_linuxdo.py — `LinuxDoSignIn.signin`. Same modelling
conventions as `GEnv`. The `_save_page_content_to_file` call at line 149 is
not awaited in the source and so emits no event. -/

structure LEnv where
  /-- `os.path.exists(cache_file_path)` (lines 118, 143). -/
  cacheExists : Bool
  /-- entering `async with AsyncCamoufox(...)` (line 110). -/
  launch : Except String Unit
  /-- `browser.new_context(storage_state=...)` (line 124). -/
  newContext : Except String Unit
  /-- `context.add_cookies(auth_cookies)` (line 128). -/
  addCookies : Except String Unit
  /-- `context.new_page()` (line 133). -/
  newPage : Except String Unit
  /-- cache probe `page.goto(oauth_url)` (line 147): response URL. -/
  probeGoto : Except String (Option String)
  /-- probe `page.query_selector('a[href^="/oauth2/approve"]')` (line 157). -/
  probeQueryBtn : Except String Bool
  /-- `page.goto("https://linux.do/login")` (line 173). -/
  gotoLogin : Except String Unit
  /-- `page.fill("#login-account-name", username)` (line 174). -/
  fillUser : Except String Unit
  /-- `page.fill("#login-account-password", password)` (line 176). -/
  fillPass : Except String Unit
  /-- `page.click("#login-button")` (line 178). -/
  clickLogin : Except String Unit
  /-- `page.url` after credential submission (line 184). -/
  currentUrl : String
  /-- challenge `page.wait_for_selector('a[href^="/oauth2/approve"]', 60000)`
  (line 192). Unused by the model: the surrounding `except` at line 195
  swallows any outcome (`pass`) and nothing downstream reads it. -/
  challengeWait : Except String Unit
  /-- `context.storage_state(path=cache_file_path)` (line 201). -/
  saveStorage : Except String Unit
  /-- post-login `page.goto(oauth_url)` (line 212). -/
  authGoto : Except String Unit
  /-- `page.wait_for_selector('a[href^="/oauth2/approve"]', 30000)` (line 222). -/
  waitApproveBtn : Except String Unit
  /-- `page.query_selector('a[href^="/oauth2/approve"]')` (line 223). -/
  queryApproveBtn : Except String Bool
  /-- `allow_btn_ele.click()` (line 227). -/
  clickApprove : Except String Unit
  /-- `page.wait_for_url("**origin/oauth/**", 30000)` (line 228). -/
  waitOauthUrl : Except String Unit
  /-- `page.wait_for_function(..., 10000)` (line 234). Unused by the model:
  its failure only triggers a 5 s wait. -/
  waitUserFn : Except String Unit
  /-- `page.evaluate("() => localStorage.getItem('user')")` (line 238). -/
  evalUser : Except String (Option String)
  /-- `json.loads(user_data)` then `.get("id")` (lines 240-241). -/
  parseUserId : Except String (Option String)
  /-- `page.context.cookies()` (line 255). -/
  ctxCookies : Except String (List Cookie)
  /-- `page.url` at the identity-fallback point (line 262). -/
  finalUrl : String
deriving Repr

/-- The user id extracted from `localStorage` (lines 230-249). -/
def linuxdoApiUser (env : LEnv) : Option String :=
  match env.evalUser with
  | .error _ => none
  | .ok none => none
  | .ok (some _) =>
    match env.parseUserId with
    | .error _ => none
    | .ok idOpt => idOpt

/-- The cache probe (lines 143-166): exceptions are swallowed at line 165.
Unlike the GitHub driver, the probe does not click the approve control. -/
def linuxdoProbe (env : LEnv) (origin : String) : Bool :=
  match env.probeGoto with
  | .error _ => false
  | .ok respOpt =>
    if respInOrigin origin respOpt then true
    else
      match env.probeQueryBtn with
      | .error _ => false
      | .ok b => b

/-- The fresh-login region (lines 169-207). The Cloudflare-challenge wait
(lines 183-198) is performed when the post-submission URL contains the
challenge path; its timeout is swallowed (`pass`) and the flow continues to
the storage-state save either way. -/
def linuxdoLoginRegion (env : LEnv) (cachePath : String) :
    Option Ret × List Event :=
  let err : Option Ret × List Event :=
    (some (false, .error "Linux.do sign-in error"), [.screenshot "signin_bypass_error"])
  match env.gotoLogin with
  | .error _ => err
  | .ok _ =>
  match env.fillUser with
  | .error _ => err
  | .ok _ =>
  match env.fillPass with
  | .error _ => err
  | .ok _ =>
  match env.clickLogin with
  | .error _ => err
  | .ok _ =>
    let evs := Event.savePageContent "sign_in_result" ::
      (if strContains env.currentUrl "linux.do/challenge" then
        [Event.challengeWait 60000]
      else [])
    match env.saveStorage with
    | .error _ =>
      (some (false, .error "Linux.do sign-in error"),
        evs ++ [.screenshot "signin_bypass_error"])
    | .ok _ => (none, evs ++ [.saveStorage cachePath])

/-- The post-login authorization navigation (lines 209-216). -/
def linuxdoAuthNav (env : LEnv) : Option Ret × List Event :=
  match env.authGoto with
  | .error _ =>
    (some (false, .error "Linux.do authorization page navigation failed"),
      [.screenshot "auth_page_navigation_failed_bypass"])
  | .ok _ => (none, [])

/-- The unified authorization region (lines 218-285), run on both the
cached and the fresh-login path. -/
def linuxdoFinalize (env : LEnv) (origin : String) : Ret × List Event :=
  let errA : Ret × List Event :=
    ((false, .error "Linux.do authorization failed"),
      [.screenshot "authorization_failed_bypass"])
  match env.waitApproveBtn with
  | .error _ => errA
  | .ok _ =>
  match env.queryApproveBtn with
  | .error _ => errA
  | .ok false =>
    ((false, .error "Linux.do allow button not found"),
      [.screenshot "approve_button_not_found_bypass"])
  | .ok true =>
  match env.clickApprove with
  | .error _ => errA
  | .ok _ =>
  match env.waitOauthUrl with
  | .error _ => errA
  | .ok _ =>
    match linuxdoApiUser env with
    | some id =>
      match env.ctxCookies with
      | .error _ => errA
      | .ok cookies =>
        ((true, .userResult (filter_cookies cookies origin) id), [])
    | none =>
      let qp := parse_qs (urlQuery env.finalUrl)
      if hasQueryKey qp "code" then
        ((true, .queryParams qp), [.screenshot "oauth_failed_no_user_id_bypass"])
      else
        ((false, .error "Linux.do OAuth failed - no code in callback"),
          [.screenshot "oauth_failed_no_user_id_bypass"])

/-- The fresh-login path (lines 169-285 with `is_logged_in` false). -/
def linuxdoFresh (env : LEnv) (origin cachePath : String) : Ret × List Event :=
  match linuxdoLoginRegion env cachePath with
  | (some r, evs) => (r, evs)
  | (none, evs) =>
    match linuxdoAuthNav env with
    | (some r, evs2) => (r, evs ++ evs2)
    | (none, evs2) =>
      let (r, evs3) := linuxdoFinalize env origin
      (r, evs ++ evs2 ++ evs3)

/-- The body of the outer `try` (lines 135-285). -/
def linuxdoBody (env : LEnv) (origin cachePath : String) : Ret × List Event :=
  let isLoggedIn := if env.cacheExists then linuxdoProbe env origin else false
  if isLoggedIn then linuxdoFinalize env origin
  else linuxdoFresh env origin cachePath

/-- `LinuxDoSignIn.signin` (lines 86-293). As in the GitHub driver, the
stages before the `try`/`finally` (lines 110-133) can raise past the
driver boundary and then emit no close event. -/
def linuxdoSignin (env : LEnv) (origin : String) (authCookies : List Cookie)
    (cachePath : String) : Outcome × List Event :=
  match env.launch with
  | .error e => (.raised e, [])
  | .ok _ =>
  match env.newContext with
  | .error e => (.raised e, [])
  | .ok _ =>
  match (if authCookies.isEmpty then Except.ok () else env.addCookies) with
  | .error e => (.raised e, [])
  | .ok _ =>
  match env.newPage with
  | .error e => (.raised e, [])
  | .ok _ =>
    let (r, evs) := linuxdoBody env origin cachePath
    (.ret r.1 r.2, evs ++ [.pageClose, .contextClose])

/-- The GitHub fresh-login path never reads the cache flag. -/
theorem githubFresh_cacheIrrel (env : GEnv) (b : Bool) (o p : String) :
    githubFresh { env with cacheExists := b } o p = githubFresh env o p := by
  cases env
  rfl

/-- The LinuxDo fresh-login path never reads the cache flag. -/
theorem linuxdoFresh_cacheIrrel (env : LEnv) (b : Bool) (o p : String) :
    linuxdoFresh { env with cacheExists := b } o p = linuxdoFresh env o p := by
  cases env
  rfl

/-- A body with no cache file runs the fresh-login path. -/
theorem githubBody_noCache (env : GEnv) (o p : String)
    (h : env.cacheExists = false) :
    githubBody env o p = githubFresh env o p := by
  simp [githubBody, h]

/-- A body whose probe classifies the state as needs-login runs the
fresh-login path. -/
theorem githubBody_probeFalse (env : GEnv) (o p : String)
    (h : githubProbe env o = false) :
    githubBody env o p = githubFresh env o p := by
  simp [githubBody, h]

/-- A probe whose authorize-URL navigation raises is classified needs-login. -/
theorem githubProbe_goto_error (env : GEnv) (o e : String)
    (h : env.probeGoto = .error e) : githubProbe env o = false := by
  simp [githubProbe, h]

/-- A probe outside the origin whose selector query raises is classified
needs-login. -/
theorem githubProbe_selector_error (env : GEnv) (o e : String)
    (r : Option String) (h : env.probeGoto = .ok r)
    (hr : respInOrigin o r = false) (h2 : env.probeQueryBtn = .error e) :
    githubProbe env o = false := by
  simp [githubProbe, h, hr, h2]

/-- A body with no cache file runs the fresh-login path. -/
theorem linuxdoBody_noCache (env : LEnv) (o p : String)
    (h : env.cacheExists = false) :
    linuxdoBody env o p = linuxdoFresh env o p := by
  simp [linuxdoBody, h]

/-- A body whose probe classifies the state as needs-login runs the
fresh-login path. -/
theorem linuxdoBody_probeFalse (env : LEnv) (o p : String)
    (h : linuxdoProbe env o = false) :
    linuxdoBody env o p = linuxdoFresh env o p := by
  simp [linuxdoBody, h]

/-- A probe whose authorize-URL navigation raises is classified needs-login. -/
theorem linuxdoProbe_goto_error (env : LEnv) (o e : String)
    (h : env.probeGoto = .error e) : linuxdoProbe env o = false := by
  simp [linuxdoProbe, h]

/-- A probe outside the origin whose selector query raises is classified
needs-login. -/
theorem linuxdoProbe_selector_error (env : LEnv) (o e : String)
    (r : Option String) (h : env.probeGoto = .ok r)
    (hr : respInOrigin o r = false) (h2 : env.probeQueryBtn = .error e) :
    linuxdoProbe env o = false := by
  simp [linuxdoProbe, h, hr, h2]

/-- Congruence for `githubSignin`: environments that agree on the pre-try
stages and induce the same body produce identical runs. -/
theorem githubSignin_congr (env env' : GEnv) (o : String) (ac : List Cookie)
    (p : String)
    (h1 : env.launch = env'.launch) (h2 : env.newContext = env'.newContext)
    (h3 : env.addCookies = env'.addCookies) (h4 : env.newPage = env'.newPage)
    (hb : githubBody env o p = githubBody env' o p) :
    githubSignin env o ac p = githubSignin env' o ac p := by
  unfold githubSignin
  rw [h1, h2, h3, h4, hb]

/-- Congruence for `linuxdoSignin`. -/
theorem linuxdoSignin_congr (env env' : LEnv) (o : String) (ac : List Cookie)
    (p : String)
    (h1 : env.launch = env'.launch) (h2 : env.newContext = env'.newContext)
    (h3 : env.addCookies = env'.addCookies) (h4 : env.newPage = env'.newPage)
    (hb : linuxdoBody env o p = linuxdoBody env' o p) :
    linuxdoSignin env o ac p = linuxdoSignin env' o ac p := by
  unfold linuxdoSignin
  rw [h1, h2, h3, h4, hb]

example : parse_qs "code=abc123" = [("code", ["abc123"])] := by decide
example : urlQuery "https://x.top/oauth/github?code=abc123&state=z" = "code=abc123&state=z" := by decide
example : parse_qs "code=abc123&state=z&code=d" = [("code", ["abc123", "d"]), ("state", ["z"])] := by decide
example : strContains "https://linux.do/challenge?x" "linux.do/challenge" = true := by decide
example : originHost "https://anyrouter.top" = "anyrouter.top" := by decide

/-!  Claim theorems. -/

/-- C4: for every cookie list and target origin, `filter_cookies` returns a
sublist of its input (hence a subset, preserving input order), every output
cookie's domain matches the origin's host exactly or as a parent domain,
and applying the filter twice yields the same result as applying it once.
Determinism and purity hold by construction: `filter_cookies` is a total
Lean function of its two arguments. -/
theorem C4_filter_cookies_scoper (cookies : List Cookie) (origin : String) :
    (filter_cookies cookies origin).Sublist cookies ∧
    (∀ c ∈ filter_cookies cookies origin,
      domainMatches c.domain (originHost origin) = true) ∧
    filter_cookies (filter_cookies cookies origin) origin =
      filter_cookies cookies origin := by
  refine ⟨List.filter_sublist _, ?_, ?_⟩
  · intro c hc
    exact (List.mem_filter.1 hc).2
  · exact List.filter_eq_self.2 (fun c hc => (List.mem_filter.1 hc).2)

/-- A cookie whose domain is the host of the anyrouter origin. -/
def ckMatch : Cookie :=
  { name := "session", value := "s1", domain := "anyrouter.top", path := "/" }

/-- A cookie scoped to an unrelated domain. -/
def ckOther : Cookie :=
  { name := "ga", value := "g1", domain := "example.org", path := "/" }

/-- C4 witness: the scoper properties instantiated on a concrete two-cookie
list and the anyrouter origin. -/
theorem C4_filter_cookies_scoper_witness :
    (filter_cookies [ckMatch, ckOther] "https://anyrouter.top").Sublist
      [ckMatch, ckOther] ∧
    (∀ c ∈ filter_cookies [ckMatch, ckOther] "https://anyrouter.top",
      domainMatches c.domain (originHost "https://anyrouter.top") = true) ∧
    filter_cookies (filter_cookies [ckMatch, ckOther] "https://anyrouter.top")
        "https://anyrouter.top" =
      filter_cookies [ckMatch, ckOther] "https://anyrouter.top" :=
  C4_filter_cookies_scoper [ckMatch, ckOther] "https://anyrouter.top"

/-- C10: when the input dict binds `linuxdo_auth_path` but not
`github_auth_path`, every config produced by `ProviderConfig.from_dict` has
`linuxdo_auth_path` equal to the default `/api/oauth/linuxdo`: the supplied
value is ignored because the field is populated from the
`github_auth_path` key (src/utils/config.py line 53). -/
theorem C10_linuxdo_auth_path_ignored (name : String) (d : PyDict) (v : PyVal)
    (hl : dget d "linuxdo_auth_path" = some v)
    (hg : dget d "github_auth_path" = none) (pc : ProviderConfig)
    (hpc : ProviderConfig.from_dict name d = some pc) :
    pc.linuxdo_auth_path = PyVal.str "/api/oauth/linuxdo" := by
  unfold ProviderConfig.from_dict at hpc
  cases ho : dget d "origin" with
  | none => rw [ho] at hpc; cases hpc
  | some o =>
    rw [ho] at hpc
    have h := Option.some_injective _ hpc
    rw [← h]
    simp [hg]

/-- A config dict carrying a custom `linuxdo_auth_path` and no
`github_auth_path`. -/
def dC10 : PyDict :=
  [("origin", PyVal.str "https://example.com"),
   ("linuxdo_auth_path", PyVal.str "/custom/linuxdo")]

/-- The config `from_dict` actually builds from `dC10`: the custom
`linuxdo_auth_path` does not appear. -/
def pcC10 : ProviderConfig :=
  { name := "p"
    origin := .str "https://example.com"
    login_path := .str "/login"
    status_path := .str "/api/status"
    auth_state_path := .str "api/oauth/state"
    sign_in_path := .str "/api/user/sign_in"
    user_info_path := .str "/api/user/self"
    api_user_key := .str "new-api-user"
    github_client_id := none
    github_auth_path := .str "/api/oauth/github"
    linuxdo_client_id := none
    linuxdo_auth_path := .str "/api/oauth/linuxdo"
    aliyun_captcha := .bool false
    bypass_method := none }

/-- C10 witness: on `dC10` the parsed config's `linuxdo_auth_path` is the
default, not the supplied `/custom/linuxdo`. -/
theorem C10_linuxdo_auth_path_ignored_witness :
    pcC10.linuxdo_auth_path = PyVal.str "/api/oauth/linuxdo" :=
  C10_linuxdo_auth_path_ignored "p" dC10 (PyVal.str "/custom/linuxdo")
    (by decide) (by decide) pcC10 (by decide)

/-- A GitHub-driver environment for the cached happy path: every engine
call succeeds, the cache probe lands inside the relying-party origin, the
identity extraction finds user id 42. -/
def gHappy : GEnv where
  cacheExists := true
  launch := .ok ()
  newContext := .ok ()
  addCookies := .ok ()
  newPage := .ok ()
  probeGoto := .ok (some "https://anyrouter.top/console")
  probeQueryBtn := .ok false
  probeClickBtn := .ok ()
  gotoLogin := .ok ()
  fillUser := .ok ()
  fillPass := .ok ()
  clickSignin := .ok ()
  querySwitchForm := .ok false
  querySwitchBtn := .ok false
  clickSwitchBtn := .ok ()
  queryOtpInput := .ok false
  currentUrl := "https://github.com/session"
  secretGet := .ok none
  fillOtp := .ok ()
  waitUrlChange := .ok ()
  saveStorage := .ok ()
  authGoto := .ok (some "https://anyrouter.top/console")
  authQueryBtn := .ok true
  authClickBtn := .ok ()
  waitOauthUrl := .ok ()
  waitUserFn := .ok ()
  evalUser := .ok (some "raw user json with id 42")
  parseUserId := .ok (some "42")
  ctxCookies := .ok [ckMatch, ckOther]
  finalUrl := "https://anyrouter.top/oauth/github?code=abc123&state=xyz"

/-- A LinuxDo-driver environment for the cached happy path. -/
def lHappy : LEnv where
  cacheExists := true
  launch := .ok ()
  newContext := .ok ()
  addCookies := .ok ()
  newPage := .ok ()
  probeGoto := .ok (some "https://anyrouter.top/console")
  probeQueryBtn := .ok false
  gotoLogin := .ok ()
  fillUser := .ok ()
  fillPass := .ok ()
  clickLogin := .ok ()
  currentUrl := "https://linux.do/"
  challengeWait := .ok ()
  saveStorage := .ok ()
  authGoto := .ok ()
  waitApproveBtn := .ok ()
  queryApproveBtn := .ok true
  clickApprove := .ok ()
  waitOauthUrl := .ok ()
  waitUserFn := .ok ()
  evalUser := .ok (some "raw user json with id 42")
  parseUserId := .ok (some "42")
  ctxCookies := .ok [ckMatch, ckOther]
  finalUrl := "https://anyrouter.top/oauth/linuxdo?code=abc123&state=xyz"

/-- C1 counterexample: with a failing `browser.new_context` the GitHub
driver's `signin` raises past the driver boundary instead of returning a
failure pair — context creation happens before the `try`/`finally`
(src/sign_in_with_github.py line 125), refuting the claim that such
exceptions are converted into a returned failure. -/
theorem C1_context_creation_raises :
    githubSignin { gHappy with newContext := .error "context creation failed" }
      "https://anyrouter.top" [] "cache.json" =
    (.raised "context creation failed", []) := rfl

/-- C1 (amended): provided browser launch, context creation, cookie seeding
and page creation succeed, `signin` (on either driver) terminates and
returns exactly one `(flag, dict)` pair; every exception raised in the
later stages is converted into a returned failure. Exceptions raised during
launch, context creation, cookie seeding or page creation still propagate
to the caller. -/
theorem C1_amended_single_outcome_after_init (genv : GEnv) (lenv : LEnv)
    (go lo : String) (gac lac : List Cookie) (gp lp : String)
    (hg1 : genv.launch = .ok ()) (hg2 : genv.newContext = .ok ())
    (hg3 : genv.addCookies = .ok ()) (hg4 : genv.newPage = .ok ())
    (hl1 : lenv.launch = .ok ()) (hl2 : lenv.newContext = .ok ())
    (hl3 : lenv.addCookies = .ok ()) (hl4 : lenv.newPage = .ok ()) :
    (∃ b d, (githubSignin genv go gac gp).1 = .ret b d) ∧
    (∃ b d, (linuxdoSignin lenv lo lac lp).1 = .ret b d) := by
  constructor
  · rcases hb : githubBody genv go gp with ⟨r, evs⟩
    refine ⟨r.1, r.2, ?_⟩
    simp [githubSignin, hg1, hg2, hg3, hg4, hb]
  · rcases hb : linuxdoBody lenv lo lp with ⟨r, evs⟩
    refine ⟨r.1, r.2, ?_⟩
    simp [linuxdoSignin, hl1, hl2, hl3, hl4, hb]

/-- C1 witness: on the concrete happy environments both drivers return a
`(flag, dict)` pair. -/
theorem C1_amended_single_outcome_after_init_witness :
    (∃ b d, (githubSignin gHappy "https://anyrouter.top" [] "cache.json").1 =
      .ret b d) ∧
    (∃ b d, (linuxdoSignin lHappy "https://anyrouter.top" [] "cache.json").1 =
      .ret b d) :=
  C1_amended_single_outcome_after_init gHappy lHappy
    "https://anyrouter.top" "https://anyrouter.top" [] [] "cache.json" "cache.json"
    rfl rfl rfl rfl rfl rfl rfl rfl

/-- C9 counterexample: with one auth cookie to seed and a failing
`context.add_cookies`, the LinuxDo driver's `signin` exits exceptionally
with an empty event trace — in particular the context acquired at
src/sign_in_with_linuxdo.py line 124 is never closed, refuting the claim
that every exit path closes page and context. -/
theorem C9_cookie_seeding_leaks_context :
    linuxdoSignin { lHappy with addCookies := .error "cookie seeding failed" }
      "https://anyrouter.top" [ckMatch] "cache.json" =
      (.raised "cookie seeding failed", []) ∧
    Event.contextClose ∉
      (linuxdoSignin { lHappy with addCookies := .error "cookie seeding failed" }
        "https://anyrouter.top" [ckMatch] "cache.json").2 := by
  refine ⟨rfl, ?_⟩
  rw [show (linuxdoSignin { lHappy with addCookies := .error "cookie seeding failed" }
    "https://anyrouter.top" [ckMatch] "cache.json").2 = [] from rfl]
  exact List.not_mem_nil _

/-- C9 (amended): every exit path that reaches the main flow (page creation
succeeded) closes the page and then the context before `signin` completes,
on both drivers; but an exception raised during launch, context creation,
cookie seeding or page creation exits without the driver closing them. -/
theorem C9_amended_closes_after_init (genv : GEnv) (lenv : LEnv)
    (go lo : String) (gac lac : List Cookie) (gp lp : String)
    (hg1 : genv.launch = .ok ()) (hg2 : genv.newContext = .ok ())
    (hg3 : genv.addCookies = .ok ()) (hg4 : genv.newPage = .ok ())
    (hl1 : lenv.launch = .ok ()) (hl2 : lenv.newContext = .ok ())
    (hl3 : lenv.addCookies = .ok ()) (hl4 : lenv.newPage = .ok ()) :
    (∃ evs, (githubSignin genv go gac gp).2 =
      evs ++ [Event.pageClose, Event.contextClose]) ∧
    (∃ evs, (linuxdoSignin lenv lo lac lp).2 =
      evs ++ [Event.pageClose, Event.contextClose]) := by
  constructor
  · rcases hb : githubBody genv go gp with ⟨r, evs⟩
    refine ⟨evs, ?_⟩
    simp [githubSignin, hg1, hg2, hg3, hg4, hb]
  · rcases hb : linuxdoBody lenv lo lp with ⟨r, evs⟩
    refine ⟨evs, ?_⟩
    simp [linuxdoSignin, hl1, hl2, hl3, hl4, hb]

/-- C9 witness: on the concrete happy environments both traces end with the
page close followed by the context close. -/
theorem C9_amended_closes_after_init_witness :
    (∃ evs, (githubSignin gHappy "https://anyrouter.top" [] "cache.json").2 =
      evs ++ [Event.pageClose, Event.contextClose]) ∧
    (∃ evs, (linuxdoSignin lHappy "https://anyrouter.top" [] "cache.json").2 =
      evs ++ [Event.pageClose, Event.contextClose]) :=
  C9_amended_closes_after_init gHappy lHappy
    "https://anyrouter.top" "https://anyrouter.top" [] [] "cache.json" "cache.json"
    rfl rfl rfl rfl rfl rfl rfl rfl

/-- C5: when the cache file exists and the cache-check probe raises — at the
navigation to the authorize URL or at the selector inspection — the error
is swallowed and the driver behaves exactly as if the cache check had
classified the state as needs-login: the run is indistinguishable from one
with no cache file, so the fresh-login path continues instead of a failure
being returned. Stated for a navigation error and for a selector error, on
both drivers. -/
theorem C5_probe_error_swallowed (genv1 genv2 : GEnv) (lenv1 lenv2 : LEnv)
    (go lo : String) (gac lac : List Cookie) (gp lp : String)
    (e1 e2 e3 e4 : String) (r1 r2 : Option String)
    (hc1 : genv1.cacheExists = true) (hn1 : genv1.probeGoto = .error e1)
    (hc2 : genv2.cacheExists = true) (hn2 : genv2.probeGoto = .ok r1)
    (hr2 : respInOrigin go r1 = false) (hs2 : genv2.probeQueryBtn = .error e2)
    (hc3 : lenv1.cacheExists = true) (hn3 : lenv1.probeGoto = .error e3)
    (hc4 : lenv2.cacheExists = true) (hn4 : lenv2.probeGoto = .ok r2)
    (hr4 : respInOrigin lo r2 = false) (hs4 : lenv2.probeQueryBtn = .error e4) :
    githubSignin genv1 go gac gp =
      githubSignin { genv1 with cacheExists := false } go gac gp ∧
    githubSignin genv2 go gac gp =
      githubSignin { genv2 with cacheExists := false } go gac gp ∧
    linuxdoSignin lenv1 lo lac lp =
      linuxdoSignin { lenv1 with cacheExists := false } lo lac lp ∧
    linuxdoSignin lenv2 lo lac lp =
      linuxdoSignin { lenv2 with cacheExists := false } lo lac lp := by
  refine ⟨?_, ?_, ?_, ?_⟩
  · refine githubSignin_congr _ _ _ _ _ (by simp) (by simp) (by simp) (by simp) ?_
    rw [githubBody_probeFalse _ _ _ (githubProbe_goto_error _ go _ hn1),
      githubBody_noCache _ _ _ (by simp)]
    exact (githubFresh_cacheIrrel genv1 false go gp).symm
  · refine githubSignin_congr _ _ _ _ _ (by simp) (by simp) (by simp) (by simp) ?_
    rw [githubBody_probeFalse _ _ _ (githubProbe_selector_error _ go _ _ hn2 hr2 hs2),
      githubBody_noCache _ _ _ (by simp)]
    exact (githubFresh_cacheIrrel genv2 false go gp).symm
  · refine linuxdoSignin_congr _ _ _ _ _ (by simp) (by simp) (by simp) (by simp) ?_
    rw [linuxdoBody_probeFalse _ _ _ (linuxdoProbe_goto_error _ lo _ hn3),
      linuxdoBody_noCache _ _ _ (by simp)]
    exact (linuxdoFresh_cacheIrrel lenv1 false lo lp).symm
  · refine linuxdoSignin_congr _ _ _ _ _ (by simp) (by simp) (by simp) (by simp) ?_
    rw [linuxdoBody_probeFalse _ _ _ (linuxdoProbe_selector_error _ lo _ _ hn4 hr4 hs4),
      linuxdoBody_noCache _ _ _ (by simp)]
    exact (linuxdoFresh_cacheIrrel lenv2 false lo lp).symm

/-- A cached GitHub environment whose probe navigation raises. -/
def gC5nav : GEnv := { gHappy with probeGoto := .error "nav timeout" }

/-- A cached GitHub environment landing outside the origin whose probe
selector query raises. -/
def gC5sel : GEnv :=
  { gHappy with
    probeGoto := .ok (some "https://github.com/login")
    probeQueryBtn := .error "selector error" }

/-- A cached LinuxDo environment whose probe navigation raises. -/
def lC5nav : LEnv := { lHappy with probeGoto := .error "nav timeout" }

/-- A cached LinuxDo environment landing outside the origin whose probe
selector query raises. -/
def lC5sel : LEnv :=
  { lHappy with
    probeGoto := .ok (some "https://linux.do/login")
    probeQueryBtn := .error "selector error" }

/-- C5 witness: the four concrete cached environments with a raising probe
behave exactly like their no-cache-file counterparts. -/
theorem C5_probe_error_swallowed_witness :
    githubSignin gC5nav "https://anyrouter.top" [] "cache.json" =
      githubSignin { gC5nav with cacheExists := false }
        "https://anyrouter.top" [] "cache.json" ∧
    githubSignin gC5sel "https://anyrouter.top" [] "cache.json" =
      githubSignin { gC5sel with cacheExists := false }
        "https://anyrouter.top" [] "cache.json" ∧
    linuxdoSignin lC5nav "https://anyrouter.top" [] "cache.json" =
      linuxdoSignin { lC5nav with cacheExists := false }
        "https://anyrouter.top" [] "cache.json" ∧
    linuxdoSignin lC5sel "https://anyrouter.top" [] "cache.json" =
      linuxdoSignin { lC5sel with cacheExists := false }
        "https://anyrouter.top" [] "cache.json" :=
  C5_probe_error_swallowed gC5nav gC5sel lC5nav lC5sel
    "https://anyrouter.top" "https://anyrouter.top" [] [] "cache.json" "cache.json"
    "nav timeout" "selector error" "nav timeout" "selector error"
    (some "https://github.com/login") (some "https://linux.do/login")
    rfl rfl rfl rfl rfl rfl rfl rfl rfl rfl rfl rfl

/-- The unified GitHub authorization region emits only screenshots. -/
theorem githubFinalize_events (env : GEnv) (o : String) :
    ∀ ev ∈ (githubFinalize env o).2, ∃ r, ev = Event.screenshot r := by
  intro ev hev
  unfold githubFinalize at hev
  rcases h1 : env.waitOauthUrl with e1 | u1 <;> simp only [h1] at hev
  · exact ⟨_, by simpa using hev⟩
  · rcases h2 : githubApiUser env with _ | id <;> simp only [h2] at hev
    · rcases hq : hasQueryKey (parse_qs (urlQuery env.finalUrl)) "code" <;>
        simp only [hq] at hev <;> exact ⟨_, by simpa using hev⟩
    · rcases h3 : env.ctxCookies with e3 | cs <;> simp only [h3] at hev
      · exact ⟨_, by simpa using hev⟩
      · simp at hev

/-- The unified LinuxDo authorization region emits only screenshots. -/
theorem linuxdoFinalize_events (env : LEnv) (o : String) :
    ∀ ev ∈ (linuxdoFinalize env o).2, ∃ r, ev = Event.screenshot r := by
  intro ev hev
  unfold linuxdoFinalize at hev
  rcases h1 : env.waitApproveBtn with e1 | u1 <;> simp only [h1] at hev
  · exact ⟨_, by simpa using hev⟩
  · rcases h2 : env.queryApproveBtn with e2 | b <;> simp only [h2] at hev
    · exact ⟨_, by simpa using hev⟩
    · cases b <;> simp only [Bool.false_eq_true, Bool.true_eq_false] at hev
      · exact ⟨_, by simpa using hev⟩
      · rcases h3 : env.clickApprove with e3 | u3 <;> simp only [h3] at hev
        · exact ⟨_, by simpa using hev⟩
        · rcases h4 : env.waitOauthUrl with e4 | u4 <;> simp only [h4] at hev
          · exact ⟨_, by simpa using hev⟩
          · rcases h5 : linuxdoApiUser env with _ | id <;> simp only [h5] at hev
            · rcases hq : hasQueryKey (parse_qs (urlQuery env.finalUrl)) "code" <;>
                simp only [hq] at hev <;> exact ⟨_, by simpa using hev⟩
            · rcases h6 : env.ctxCookies with e6 | cs <;> simp only [h6] at hev
              · exact ⟨_, by simpa using hev⟩
              · simp at hev

/-- A probe landing inside the relying-party origin is classified
logged-in. -/
theorem githubProbe_inOrigin (env : GEnv) (o : String) (r : Option String)
    (h : env.probeGoto = .ok r) (hr : respInOrigin o r = true) :
    githubProbe env o = true := by
  simp [githubProbe, h, hr]

/-- A probe landing inside the relying-party origin is classified
logged-in. -/
theorem linuxdoProbe_inOrigin (env : LEnv) (o : String) (r : Option String)
    (h : env.probeGoto = .ok r) (hr : respInOrigin o r = true) :
    linuxdoProbe env o = true := by
  simp [linuxdoProbe, h, hr]

/-- The cached path runs the unified region directly. -/
theorem githubBody_cached (env : GEnv) (o p : String)
    (hc : env.cacheExists = true) (hp : githubProbe env o = true) :
    githubBody env o p = githubFinalize env o := by
  simp [githubBody, hc, hp]

/-- The cached path runs the unified region directly. -/
theorem linuxdoBody_cached (env : LEnv) (o p : String)
    (hc : env.cacheExists = true) (hp : linuxdoProbe env o = true) :
    linuxdoBody env o p = linuxdoFinalize env o := by
  simp [linuxdoBody, hc, hp]

/-- With all pre-try stages succeeding, the run's trace is the body's trace
followed by the page close and the context close. -/
theorem githubSignin_trace_ok (env : GEnv) (o : String) (ac : List Cookie)
    (p : String)
    (h1 : env.launch = .ok ()) (h2 : env.newContext = .ok ())
    (h3 : env.addCookies = .ok ()) (h4 : env.newPage = .ok ()) :
    (githubSignin env o ac p).2 =
      (githubBody env o p).2 ++ [Event.pageClose, Event.contextClose] := by
  rcases hb : githubBody env o p with ⟨r, evs⟩
  simp [githubSignin, h1, h2, h3, h4, hb]

/-- With all pre-try stages succeeding, the run's trace is the body's trace
followed by the page close and the context close. -/
theorem linuxdoSignin_trace_ok (env : LEnv) (o : String) (ac : List Cookie)
    (p : String)
    (h1 : env.launch = .ok ()) (h2 : env.newContext = .ok ())
    (h3 : env.addCookies = .ok ()) (h4 : env.newPage = .ok ()) :
    (linuxdoSignin env o ac p).2 =
      (linuxdoBody env o p).2 ++ [Event.pageClose, Event.contextClose] := by
  rcases hb : linuxdoBody env o p with ⟨r, evs⟩
  simp [linuxdoSignin, h1, h2, h3, h4, hb]

/-- Every run's trace is empty (a pre-try exceptional exit) or the body's
trace followed by the two closes. -/
theorem githubSignin_trace (env : GEnv) (o : String) (ac : List Cookie)
    (p : String) :
    (githubSignin env o ac p).2 = [] ∨
    (githubSignin env o ac p).2 =
      (githubBody env o p).2 ++ [Event.pageClose, Event.contextClose] := by
  unfold githubSignin
  rcases hb : githubBody env o p with ⟨r, evs⟩
  rcases h1 : env.launch with e | u
  · simp [h1]
  rcases h2 : env.newContext with e | u2
  · simp [h1, h2]
  rcases h3 : (if ac.isEmpty then Except.ok () else env.addCookies : Except String Unit)
    with e | u3
  · simp [h1, h2, h3]
  rcases h4 : env.newPage with e | u4
  · simp [h1, h2, h3, h4]
  · right
    simp [h1, h2, h3, h4, hb]

/-- Every run's trace is empty (a pre-try exceptional exit) or the body's
trace followed by the two closes. -/
theorem linuxdoSignin_trace (env : LEnv) (o : String) (ac : List Cookie)
    (p : String) :
    (linuxdoSignin env o ac p).2 = [] ∨
    (linuxdoSignin env o ac p).2 =
      (linuxdoBody env o p).2 ++ [Event.pageClose, Event.contextClose] := by
  unfold linuxdoSignin
  rcases hb : linuxdoBody env o p with ⟨r, evs⟩
  rcases h1 : env.launch with e | u
  · simp [h1]
  rcases h2 : env.newContext with e | u2
  · simp [h1, h2]
  rcases h3 : (if ac.isEmpty then Except.ok () else env.addCookies : Except String Unit)
    with e | u3
  · simp [h1, h2, h3]
  rcases h4 : env.newPage with e | u4
  · simp [h1, h2, h3, h4]
  · right
    simp [h1, h2, h3, h4, hb]

/-- A login region whose four credential-submission steps and whose
storage-state save succeed completes, saving the snapshot last. -/
theorem githubLoginRegion_ok (env : GEnv) (p : String)
    (h5 : env.gotoLogin = .ok ()) (h6 : env.fillUser = .ok ())
    (h7 : env.fillPass = .ok ()) (h8 : env.clickSignin = .ok ())
    (h9 : env.saveStorage = .ok ()) :
    githubLoginRegion env p =
      (none, (Event.savePageContent "sign_in_result" ::
        (githubAccountSelect env ++ githubTwoFactor env)) ++
        [Event.saveStorage p]) := by
  simp [githubLoginRegion, h5, h6, h7, h8, h9]

/-- A login region whose four credential-submission steps and whose
storage-state save succeed completes, saving the snapshot last. -/
theorem linuxdoLoginRegion_ok (env : LEnv) (p : String)
    (h5 : env.gotoLogin = .ok ()) (h6 : env.fillUser = .ok ())
    (h7 : env.fillPass = .ok ()) (h8 : env.clickLogin = .ok ())
    (h9 : env.saveStorage = .ok ()) :
    linuxdoLoginRegion env p =
      (none, (Event.savePageContent "sign_in_result" ::
        (if strContains env.currentUrl "linux.do/challenge" then
          [Event.challengeWait 60000] else [])) ++
        [Event.saveStorage p]) := by
  simp [linuxdoLoginRegion, h5, h6, h7, h8, h9]

/-- C6 counterexample: a run that restores the cached session, ends in the
Authorized outcome (success flag true, cookies and user id returned), and
never persists the storage state — `context.storage_state(path=...)` is
only executed on the fresh-login path (src/sign_in_with_github.py
line 270), refuting the claim that every invocation ending Authorized
persists the snapshot. -/
theorem C6_cached_authorized_never_persists :
    githubSignin gHappy "https://anyrouter.top" [] "cache.json" =
      (.ret true (.userResult [ckMatch] "42"),
        [Event.pageClose, Event.contextClose]) ∧
    Event.saveStorage "cache.json" ∉
      (githubSignin gHappy "https://anyrouter.top" [] "cache.json").2 := by
  refine ⟨rfl, ?_⟩
  rw [show (githubSignin gHappy "https://anyrouter.top" [] "cache.json").2 =
    [Event.pageClose, Event.contextClose] from rfl]
  decide

/-- C6 (amended): the driver persists the browser storage state to
`cache_file_path` exactly on the fresh-login path — whenever the login
region's credential submission and the save itself succeed — unconditionally
overwriting any prior snapshot; an invocation that ends Authorized through
the cached-session probe does not persist anything. Stated for both
drivers. -/
theorem C6_amended_persist_only_on_fresh_login (genv genvC : GEnv)
    (lenv lenvC : LEnv) (go lo : String) (gac lac : List Cookie)
    (gp lp : String) (ru rl : Option String)
    (hg0 : genv.cacheExists = false)
    (hg1 : genv.launch = .ok ()) (hg2 : genv.newContext = .ok ())
    (hg3 : genv.addCookies = .ok ()) (hg4 : genv.newPage = .ok ())
    (hg5 : genv.gotoLogin = .ok ()) (hg6 : genv.fillUser = .ok ())
    (hg7 : genv.fillPass = .ok ()) (hg8 : genv.clickSignin = .ok ())
    (hg9 : genv.saveStorage = .ok ())
    (hgc0 : genvC.cacheExists = true) (hgc1 : genvC.probeGoto = .ok ru)
    (hgc2 : respInOrigin go ru = true)
    (hl0 : lenv.cacheExists = false)
    (hl1 : lenv.launch = .ok ()) (hl2 : lenv.newContext = .ok ())
    (hl3 : lenv.addCookies = .ok ()) (hl4 : lenv.newPage = .ok ())
    (hl5 : lenv.gotoLogin = .ok ()) (hl6 : lenv.fillUser = .ok ())
    (hl7 : lenv.fillPass = .ok ()) (hl8 : lenv.clickLogin = .ok ())
    (hl9 : lenv.saveStorage = .ok ())
    (hlc0 : lenvC.cacheExists = true) (hlc1 : lenvC.probeGoto = .ok rl)
    (hlc2 : respInOrigin lo rl = true) :
    Event.saveStorage gp ∈ (githubSignin genv go gac gp).2 ∧
    Event.saveStorage gp ∉ (githubSignin genvC go gac gp).2 ∧
    Event.saveStorage lp ∈ (linuxdoSignin lenv lo lac lp).2 ∧
    Event.saveStorage lp ∉ (linuxdoSignin lenvC lo lac lp).2 := by
  refine ⟨?_, ?_, ?_, ?_⟩
  · rw [githubSignin_trace_ok _ _ _ _ hg1 hg2 hg3 hg4,
      githubBody_noCache _ _ _ hg0]
    unfold githubFresh
    rw [githubLoginRegion_ok _ _ hg5 hg6 hg7 hg8 hg9]
    rcases han : githubAuthNav genv go with ⟨or, evs2⟩
    rcases or with _ | r <;> simp
  · rcases githubSignin_trace genvC go gac gp with h | h
    · rw [h]
      exact List.not_mem_nil _
    · rw [h, githubBody_cached _ _ _ hgc0 (githubProbe_inOrigin _ _ _ hgc1 hgc2)]
      intro hmem
      rcases List.mem_append.1 hmem with hmem | hmem
      · rcases githubFinalize_events _ _ _ hmem with ⟨r, hr⟩
        simp at hr
      · simp at hmem
  · rw [linuxdoSignin_trace_ok _ _ _ _ hl1 hl2 hl3 hl4,
      linuxdoBody_noCache _ _ _ hl0]
    unfold linuxdoFresh
    rw [linuxdoLoginRegion_ok _ _ hl5 hl6 hl7 hl8 hl9]
    rcases han : linuxdoAuthNav lenv with ⟨or, evs2⟩
    rcases or with _ | r <;> simp
  · rcases linuxdoSignin_trace lenvC lo lac lp with h | h
    · rw [h]
      exact List.not_mem_nil _
    · rw [h, linuxdoBody_cached _ _ _ hlc0 (linuxdoProbe_inOrigin _ _ _ hlc1 hlc2)]
      intro hmem
      rcases List.mem_append.1 hmem with hmem | hmem
      · rcases linuxdoFinalize_events _ _ _ hmem with ⟨r, hr⟩
        simp at hr
      · simp at hmem

/-- A GitHub environment running the fresh-login path with every stage
succeeding. -/
def gFresh : GEnv := { gHappy with cacheExists := false }

/-- A LinuxDo environment running the fresh-login path with every stage
succeeding. -/
def lFresh : LEnv := { lHappy with cacheExists := false }

/-- C6 witness: the concrete fresh-path runs save the snapshot, the
concrete cached Authorized runs do not. -/
theorem C6_amended_persist_only_on_fresh_login_witness :
    Event.saveStorage "cache.json" ∈
      (githubSignin gFresh "https://anyrouter.top" [] "cache.json").2 ∧
    Event.saveStorage "cache.json" ∉
      (githubSignin gHappy "https://anyrouter.top" [] "cache.json").2 ∧
    Event.saveStorage "cache.json" ∈
      (linuxdoSignin lFresh "https://anyrouter.top" [] "cache.json").2 ∧
    Event.saveStorage "cache.json" ∉
      (linuxdoSignin lHappy "https://anyrouter.top" [] "cache.json").2 :=
  C6_amended_persist_only_on_fresh_login gFresh gHappy lFresh lHappy
    "https://anyrouter.top" "https://anyrouter.top" [] [] "cache.json" "cache.json"
    (some "https://anyrouter.top/console") (some "https://anyrouter.top/console")
    rfl rfl rfl rfl rfl rfl rfl rfl rfl rfl rfl rfl rfl
    rfl rfl rfl rfl rfl rfl rfl rfl rfl rfl rfl rfl rfl

/-- With all pre-try stages succeeding, the run's outcome is the body's
returned pair. -/
theorem githubSignin_ret_ok (env : GEnv) (o : String) (ac : List Cookie)
    (p : String)
    (h1 : env.launch = .ok ()) (h2 : env.newContext = .ok ())
    (h3 : env.addCookies = .ok ()) (h4 : env.newPage = .ok ()) :
    (githubSignin env o ac p).1 =
      .ret (githubBody env o p).1.1 (githubBody env o p).1.2 := by
  rcases hb : githubBody env o p with ⟨r, evs⟩
  simp [githubSignin, h1, h2, h3, h4, hb]

/-- With all pre-try stages succeeding, the run's outcome is the body's
returned pair. -/
theorem linuxdoSignin_ret_ok (env : LEnv) (o : String) (ac : List Cookie)
    (p : String)
    (h1 : env.launch = .ok ()) (h2 : env.newContext = .ok ())
    (h3 : env.addCookies = .ok ()) (h4 : env.newPage = .ok ()) :
    (linuxdoSignin env o ac p).1 =
      .ret (linuxdoBody env o p).1.1 (linuxdoBody env o p).1.2 := by
  rcases hb : linuxdoBody env o p with ⟨r, evs⟩
  simp [linuxdoSignin, h1, h2, h3, h4, hb]

/-- The GitHub login region either continues or returns the tagged sign-in
failure with a diagnostic screenshot in its trace. -/
theorem githubLoginRegion_cases (env : GEnv) (p : String) :
    (githubLoginRegion env p).1 = none ∨
    ((githubLoginRegion env p).1 =
        some (false, RetDict.error "GitHub sign-in error") ∧
      Event.screenshot "github_signin_error" ∈ (githubLoginRegion env p).2) := by
  unfold githubLoginRegion
  rcases h5 : env.gotoLogin with e | u
  · simp [h5]
  rcases h6 : env.fillUser with e | u2
  · simp [h5, h6]
  rcases h7 : env.fillPass with e | u3
  · simp [h5, h6, h7]
  rcases h8 : env.clickSignin with e | u4
  · simp [h5, h6, h7, h8]
  rcases h9 : env.saveStorage with e | u5
  · simp [h5, h6, h7, h8, h9]
  · simp [h5, h6, h7, h8, h9]

/-- The LinuxDo login region either continues or returns the tagged sign-in
failure with a diagnostic screenshot in its trace. -/
theorem linuxdoLoginRegion_cases (env : LEnv) (p : String) :
    (linuxdoLoginRegion env p).1 = none ∨
    ((linuxdoLoginRegion env p).1 =
        some (false, RetDict.error "Linux.do sign-in error") ∧
      Event.screenshot "signin_bypass_error" ∈ (linuxdoLoginRegion env p).2) := by
  unfold linuxdoLoginRegion
  rcases h5 : env.gotoLogin with e | u
  · simp [h5]
  rcases h6 : env.fillUser with e | u2
  · simp [h5, h6]
  rcases h7 : env.fillPass with e | u3
  · simp [h5, h6, h7]
  rcases h8 : env.clickLogin with e | u4
  · simp [h5, h6, h7, h8]
  rcases h9 : env.saveStorage with e | u5
  · simp [h5, h6, h7, h8, h9]
  · simp [h5, h6, h7, h8, h9]

/-- The GitHub authorization navigation either continues or returns the
tagged approval failure with a diagnostic screenshot. -/
theorem githubAuthNav_cases (env : GEnv) (o : String) :
    (githubAuthNav env o).1 = none ∨
    ((githubAuthNav env o).1 =
        some (false, RetDict.error "GitHub authorization approval failed") ∧
      Event.screenshot "github_auth_approval_failed" ∈ (githubAuthNav env o).2) := by
  unfold githubAuthNav
  rcases h : env.authGoto with e | ropt
  · simp [h]
  rcases hr : respInOrigin o ropt
  · rcases hq : env.authQueryBtn with e | b
    · simp [h, hr, hq]
    rcases b
    · simp [h, hr, hq]
    rcases hc : env.authClickBtn with e | u
    · simp [h, hr, hq, hc]
    · simp [h, hr, hq, hc]
  · simp [h, hr]

/-- The LinuxDo authorization navigation either continues or returns the
tagged navigation failure with a diagnostic screenshot. -/
theorem linuxdoAuthNav_cases (env : LEnv) :
    (linuxdoAuthNav env).1 = none ∨
    ((linuxdoAuthNav env).1 =
        some (false, RetDict.error "Linux.do authorization page navigation failed") ∧
      Event.screenshot "auth_page_navigation_failed_bypass" ∈ (linuxdoAuthNav env).2) := by
  unfold linuxdoAuthNav
  rcases h : env.authGoto with e | u <;> simp [h]

/-- The GitHub unified region with a failing OAuth-callback wait returns
the tagged authorization failure with the diagnostic screenshot. -/
theorem githubFinalize_waitErr (env : GEnv) (o e : String)
    (h : env.waitOauthUrl = .error e) :
    githubFinalize env o =
      ((false, .error "GitHub authorization failed"),
        [.screenshot "github_authorization_failed"]) := by
  simp [githubFinalize, h]

/-- The LinuxDo unified region with a failing OAuth-callback wait returns a
failure pair with a diagnostic screenshot, whatever the earlier consent
steps did. -/
theorem linuxdoFinalize_waitErr (env : LEnv) (o e : String)
    (h : env.waitOauthUrl = .error e) :
    (∃ msg, (linuxdoFinalize env o).1 = (false, RetDict.error msg)) ∧
    ∃ r, Event.screenshot r ∈ (linuxdoFinalize env o).2 := by
  unfold linuxdoFinalize
  rcases h1 : env.waitApproveBtn with e1 | u1
  · exact ⟨⟨"Linux.do authorization failed", by simp [h1]⟩,
      "authorization_failed_bypass", by simp [h1]⟩
  rcases h2 : env.queryApproveBtn with e2 | b
  · exact ⟨⟨"Linux.do authorization failed", by simp [h1, h2]⟩,
      "authorization_failed_bypass", by simp [h1, h2]⟩
  rcases b
  · exact ⟨⟨"Linux.do allow button not found", by simp [h1, h2]⟩,
      "approve_button_not_found_bypass", by simp [h1, h2]⟩
  rcases h3 : env.clickApprove with e3 | u3
  · exact ⟨⟨"Linux.do authorization failed", by simp [h1, h2, h3]⟩,
      "authorization_failed_bypass", by simp [h1, h2, h3]⟩
  · exact ⟨⟨"Linux.do authorization failed", by simp [h1, h2, h3, h]⟩,
      "authorization_failed_bypass", by simp [h1, h2, h3, h]⟩

/-- The GitHub fresh-login path with a failing OAuth-callback wait returns
a failure pair with a diagnostic screenshot, whichever region fails
first. -/
theorem githubFresh_waitErr (env : GEnv) (o p e : String)
    (h : env.waitOauthUrl = .error e) :
    (∃ msg, (githubFresh env o p).1 = (false, RetDict.error msg)) ∧
    ∃ r, Event.screenshot r ∈ (githubFresh env o p).2 := by
  unfold githubFresh
  rcases hgl : githubLoginRegion env p with ⟨or, evs⟩
  have hcases := githubLoginRegion_cases env p
  rw [hgl] at hcases
  rcases or with _ | r
  · rcases hgn : githubAuthNav env o with ⟨or2, evs2⟩
    have hcases2 := githubAuthNav_cases env o
    rw [hgn] at hcases2
    rcases or2 with _ | r2
    · rw [githubFinalize_waitErr env o e h]
      exact ⟨⟨"GitHub authorization failed", by simp⟩,
        "github_authorization_failed", by simp⟩
    · simp at hcases2
      exact ⟨⟨"GitHub authorization approval failed", by simp [hcases2.1]⟩,
        "github_auth_approval_failed", by simpa using Or.inr hcases2.2⟩
  · simp at hcases
    exact ⟨⟨"GitHub sign-in error", by simp [hcases.1]⟩,
      "github_signin_error", by simpa using hcases.2⟩

/-- The LinuxDo fresh-login path with a failing OAuth-callback wait returns
a failure pair with a diagnostic screenshot. -/
theorem linuxdoFresh_waitErr (env : LEnv) (o p e : String)
    (h : env.waitOauthUrl = .error e) :
    (∃ msg, (linuxdoFresh env o p).1 = (false, RetDict.error msg)) ∧
    ∃ r, Event.screenshot r ∈ (linuxdoFresh env o p).2 := by
  unfold linuxdoFresh
  rcases hgl : linuxdoLoginRegion env p with ⟨or, evs⟩
  have hcases := linuxdoLoginRegion_cases env p
  rw [hgl] at hcases
  rcases or with _ | r
  · rcases hgn : linuxdoAuthNav env with ⟨or2, evs2⟩
    have hcases2 := linuxdoAuthNav_cases env
    rw [hgn] at hcases2
    rcases or2 with _ | r2
    · rcases hf : linuxdoFinalize env o with ⟨rf, evs3⟩
      have hfe := linuxdoFinalize_waitErr env o e h
      rw [hf] at hfe
      rcases hfe with ⟨⟨msg, hmsg⟩, rr, hrr⟩
      simp at hmsg hrr
      exact ⟨⟨msg, by simp [hf, hmsg]⟩, rr, by simpa [hf] using Or.inr (Or.inr hrr)⟩
    · simp at hcases2
      exact ⟨⟨"Linux.do authorization page navigation failed", by simp [hcases2.1]⟩,
        "auth_page_navigation_failed_bypass", by simpa using Or.inr hcases2.2⟩
  · simp at hcases
    exact ⟨⟨"Linux.do sign-in error", by simp [hcases.1]⟩,
      "signin_bypass_error", by simpa using hcases.2⟩

/-- The GitHub body with a failing OAuth-callback wait returns a failure
pair with a diagnostic screenshot, on the cached and on the fresh path. -/
theorem githubBody_waitErr (env : GEnv) (o p e : String)
    (h : env.waitOauthUrl = .error e) :
    (∃ msg, (githubBody env o p).1 = (false, RetDict.error msg)) ∧
    ∃ r, Event.screenshot r ∈ (githubBody env o p).2 := by
  unfold githubBody
  rcases hli : (if env.cacheExists then githubProbe env o else false) <;>
    simp only [hli]
  · exact githubFresh_waitErr env o p e h
  · rw [githubFinalize_waitErr env o e h]
    exact ⟨⟨"GitHub authorization failed", by simp⟩,
      "github_authorization_failed", by simp⟩

/-- The LinuxDo body with a failing OAuth-callback wait returns a failure
pair with a diagnostic screenshot, on the cached and on the fresh path. -/
theorem linuxdoBody_waitErr (env : LEnv) (o p e : String)
    (h : env.waitOauthUrl = .error e) :
    (∃ msg, (linuxdoBody env o p).1 = (false, RetDict.error msg)) ∧
    ∃ r, Event.screenshot r ∈ (linuxdoBody env o p).2 := by
  unfold linuxdoBody
  rcases hli : (if env.cacheExists then linuxdoProbe env o else false) <;>
    simp only [hli]
  · exact linuxdoFresh_waitErr env o p e h
  · rcases hf : linuxdoFinalize env o with ⟨rf, evs3⟩
    have hfe := linuxdoFinalize_waitErr env o e h
    rw [hf] at hfe
    rcases hfe with ⟨⟨msg, hmsg⟩, rr, hrr⟩
    simp at hmsg hrr
    exact ⟨⟨msg, by simp [hf, hmsg]⟩, rr, by simpa [hf] using hrr⟩

/-- C2: whenever the OAuth-callback wait fails — the browser URL never
matches the relying-party `origin/oauth/` pattern within its bounded
timeout — `signin` returns a failed outcome (success flag false with an
error-reason dict), never a success variant, and a diagnostic screenshot
capture is performed during the run. Stated for both drivers, for runs
whose pre-try stages succeed. -/
theorem C2_no_callback_fails_with_screenshot (genv : GEnv) (lenv : LEnv)
    (go lo : String) (gac lac : List Cookie) (gp lp ge le : String)
    (hg1 : genv.launch = .ok ()) (hg2 : genv.newContext = .ok ())
    (hg3 : genv.addCookies = .ok ()) (hg4 : genv.newPage = .ok ())
    (hgw : genv.waitOauthUrl = .error ge)
    (hl1 : lenv.launch = .ok ()) (hl2 : lenv.newContext = .ok ())
    (hl3 : lenv.addCookies = .ok ()) (hl4 : lenv.newPage = .ok ())
    (hlw : lenv.waitOauthUrl = .error le) :
    (∃ msg, (githubSignin genv go gac gp).1 = .ret false (.error msg)) ∧
    (∃ r, Event.screenshot r ∈ (githubSignin genv go gac gp).2) ∧
    (∃ msg, (linuxdoSignin lenv lo lac lp).1 = .ret false (.error msg)) ∧
    (∃ r, Event.screenshot r ∈ (linuxdoSignin lenv lo lac lp).2) := by
  obtain ⟨⟨gmsg, hgmsg⟩, gr, hgr⟩ := githubBody_waitErr genv go gp ge hgw
  obtain ⟨⟨lmsg, hlmsg⟩, lr, hlr⟩ := linuxdoBody_waitErr lenv lo lp le hlw
  refine ⟨⟨gmsg, ?_⟩, ⟨gr, ?_⟩, ⟨lmsg, ?_⟩, ⟨lr, ?_⟩⟩
  · rw [githubSignin_ret_ok genv go gac gp hg1 hg2 hg3 hg4, hgmsg]
  · rw [githubSignin_trace_ok genv go gac gp hg1 hg2 hg3 hg4]
    exact List.mem_append_left _ hgr
  · rw [linuxdoSignin_ret_ok lenv lo lac lp hl1 hl2 hl3 hl4, hlmsg]
  · rw [linuxdoSignin_trace_ok lenv lo lac lp hl1 hl2 hl3 hl4]
    exact List.mem_append_left _ hlr

/-- A GitHub environment whose OAuth-callback wait times out. -/
def gC2 : GEnv := { gHappy with waitOauthUrl := .error "Timeout 30000ms exceeded" }

/-- A LinuxDo environment whose OAuth-callback wait times out. -/
def lC2 : LEnv := { lHappy with waitOauthUrl := .error "Timeout 30000ms exceeded" }

/-- C2 witness: the concrete callback-timeout environments fail with a
screenshot on both drivers. -/
theorem C2_no_callback_fails_with_screenshot_witness :
    (∃ msg, (githubSignin gC2 "https://anyrouter.top" [] "cache.json").1 =
      .ret false (.error msg)) ∧
    (∃ r, Event.screenshot r ∈
      (githubSignin gC2 "https://anyrouter.top" [] "cache.json").2) ∧
    (∃ msg, (linuxdoSignin lC2 "https://anyrouter.top" [] "cache.json").1 =
      .ret false (.error msg)) ∧
    (∃ r, Event.screenshot r ∈
      (linuxdoSignin lC2 "https://anyrouter.top" [] "cache.json").2) :=
  C2_no_callback_fails_with_screenshot gC2 lC2
    "https://anyrouter.top" "https://anyrouter.top" [] [] "cache.json" "cache.json"
    "Timeout 30000ms exceeded" "Timeout 30000ms exceeded"
    rfl rfl rfl rfl rfl rfl rfl rfl rfl rfl

/-- The GitHub unified region reaching the callback with no extractable
user id returns the parsed query map when a `code` parameter is present,
else the tagged no-code failure. -/
theorem githubFinalize_noUser (env : GEnv) (o : String)
    (hw : env.waitOauthUrl = .ok ()) (hu : githubApiUser env = none) :
    githubFinalize env o =
      (if hasQueryKey (parse_qs (urlQuery env.finalUrl)) "code" then
        ((true, .queryParams (parse_qs (urlQuery env.finalUrl))),
          [.screenshot "github_oauth_failed_no_user_id"])
      else
        ((false, .error "GitHub OAuth failed - no code in callback"),
          [.screenshot "github_oauth_failed_no_user_id"])) := by
  simp [githubFinalize, hw, hu]

/-- The LinuxDo unified region reaching the callback with no extractable
user id returns the parsed query map when a `code` parameter is present,
else the tagged no-code failure. -/
theorem linuxdoFinalize_noUser (env : LEnv) (o : String)
    (h1 : env.waitApproveBtn = .ok ()) (h2 : env.queryApproveBtn = .ok true)
    (h3 : env.clickApprove = .ok ()) (hw : env.waitOauthUrl = .ok ())
    (hu : linuxdoApiUser env = none) :
    linuxdoFinalize env o =
      (if hasQueryKey (parse_qs (urlQuery env.finalUrl)) "code" then
        ((true, .queryParams (parse_qs (urlQuery env.finalUrl))),
          [.screenshot "oauth_failed_no_user_id_bypass"])
      else
        ((false, .error "Linux.do OAuth failed - no code in callback"),
          [.screenshot "oauth_failed_no_user_id_bypass"])) := by
  simp [linuxdoFinalize, h1, h2, h3, hw, hu]

/-- C3: on an invocation that reaches the OAuth callback (here through the
cached-session path) but extracts no user identifier from client-side
storage, `signin` returns success with the parsed query-parameter map of
the callback URL (each key mapped to its list of values) when the query
string holds a `code` parameter, and a failed outcome when it does not.
Stated for both drivers. -/
theorem C3_code_fallback (genv : GEnv) (lenv : LEnv) (go lo : String)
    (gac lac : List Cookie) (gp lp : String) (ru rl : Option String)
    (hg1 : genv.launch = .ok ()) (hg2 : genv.newContext = .ok ())
    (hg3 : genv.addCookies = .ok ()) (hg4 : genv.newPage = .ok ())
    (hgc : genv.cacheExists = true) (hgp : genv.probeGoto = .ok ru)
    (hgr : respInOrigin go ru = true) (hgw : genv.waitOauthUrl = .ok ())
    (hgu : githubApiUser genv = none)
    (hl1 : lenv.launch = .ok ()) (hl2 : lenv.newContext = .ok ())
    (hl3 : lenv.addCookies = .ok ()) (hl4 : lenv.newPage = .ok ())
    (hlc : lenv.cacheExists = true) (hlp : lenv.probeGoto = .ok rl)
    (hlr : respInOrigin lo rl = true)
    (hla : lenv.waitApproveBtn = .ok ()) (hlq : lenv.queryApproveBtn = .ok true)
    (hlk : lenv.clickApprove = .ok ()) (hlw : lenv.waitOauthUrl = .ok ())
    (hlu : linuxdoApiUser lenv = none) :
    ((hasQueryKey (parse_qs (urlQuery genv.finalUrl)) "code" = true →
      (githubSignin genv go gac gp).1 =
        .ret true (.queryParams (parse_qs (urlQuery genv.finalUrl)))) ∧
     (hasQueryKey (parse_qs (urlQuery genv.finalUrl)) "code" = false →
      (githubSignin genv go gac gp).1 =
        .ret false (.error "GitHub OAuth failed - no code in callback"))) ∧
    ((hasQueryKey (parse_qs (urlQuery lenv.finalUrl)) "code" = true →
      (linuxdoSignin lenv lo lac lp).1 =
        .ret true (.queryParams (parse_qs (urlQuery lenv.finalUrl)))) ∧
     (hasQueryKey (parse_qs (urlQuery lenv.finalUrl)) "code" = false →
      (linuxdoSignin lenv lo lac lp).1 =
        .ret false (.error "Linux.do OAuth failed - no code in callback"))) := by
  have hgB := githubBody_cached genv go gp hgc (githubProbe_inOrigin _ _ _ hgp hgr)
  have hgF := githubFinalize_noUser genv go hgw hgu
  have hlB := linuxdoBody_cached lenv lo lp hlc (linuxdoProbe_inOrigin _ _ _ hlp hlr)
  have hlF := linuxdoFinalize_noUser lenv lo hla hlq hlk hlw hlu
  refine ⟨⟨?_, ?_⟩, ?_, ?_⟩ <;> intro hq
  · rw [githubSignin_ret_ok genv go gac gp hg1 hg2 hg3 hg4, hgB, hgF]
    simp [hq]
  · rw [githubSignin_ret_ok genv go gac gp hg1 hg2 hg3 hg4, hgB, hgF]
    simp [hq]
  · rw [linuxdoSignin_ret_ok lenv lo lac lp hl1 hl2 hl3 hl4, hlB, hlF]
    simp [hq]
  · rw [linuxdoSignin_ret_ok lenv lo lac lp hl1 hl2 hl3 hl4, hlB, hlF]
    simp [hq]

/-- A GitHub environment reaching the callback whose `localStorage` user
object carries no id, with `code=abc123` in the callback URL. -/
def gC3 : GEnv := { gHappy with parseUserId := .ok none }

/-- A LinuxDo environment reaching the callback whose `localStorage` user
object carries no id, with `code=abc123` in the callback URL. -/
def lC3 : LEnv := { lHappy with parseUserId := .ok none }

/-- C3 witness: on the concrete no-identity environments with
`code=abc123&state=xyz` in the callback URL, both drivers return success
with the parsed query map `code ↦ [abc123], state ↦ [xyz]`. -/
theorem C3_code_fallback_witness :
    ((hasQueryKey (parse_qs (urlQuery gC3.finalUrl)) "code" = true →
      (githubSignin gC3 "https://anyrouter.top" [] "cache.json").1 =
        .ret true (.queryParams (parse_qs (urlQuery gC3.finalUrl)))) ∧
     (hasQueryKey (parse_qs (urlQuery gC3.finalUrl)) "code" = false →
      (githubSignin gC3 "https://anyrouter.top" [] "cache.json").1 =
        .ret false (.error "GitHub OAuth failed - no code in callback"))) ∧
    ((hasQueryKey (parse_qs (urlQuery lC3.finalUrl)) "code" = true →
      (linuxdoSignin lC3 "https://anyrouter.top" [] "cache.json").1 =
        .ret true (.queryParams (parse_qs (urlQuery lC3.finalUrl)))) ∧
     (hasQueryKey (parse_qs (urlQuery lC3.finalUrl)) "code" = false →
      (linuxdoSignin lC3 "https://anyrouter.top" [] "cache.json").1 =
        .ret false (.error "Linux.do OAuth failed - no code in callback"))) :=
  C3_code_fallback gC3 lC3 "https://anyrouter.top" "https://anyrouter.top"
    [] [] "cache.json" "cache.json"
    (some "https://anyrouter.top/console") (some "https://anyrouter.top/console")
    rfl rfl rfl rfl rfl rfl rfl rfl rfl
    rfl rfl rfl rfl rfl rfl rfl rfl rfl rfl rfl rfl

/-- C3 on concrete data: the driver-returned map for the example callback
URL is exactly `code ↦ [abc123], state ↦ [xyz]`. -/
example :
    (githubSignin gC3 "https://anyrouter.top" [] "cache.json").1 =
      .ret true (.queryParams [("code", ["abc123"]), ("state", ["xyz"])]) := by
  decide

/-- Number of secret-channel requests recorded in a trace. -/
def countSecretRequests (evs : List Event) : Nat :=
  (evs.filter (fun ev => match ev with
    | .secretRequest _ => true
    | _ => false)).length

/-- Number of passive manual-completion waits recorded in a trace. -/
def countPassiveWaits (evs : List Event) : Nat :=
  (evs.filter (fun ev => match ev with
    | .passiveWait _ => true
    | _ => false)).length

/-- Both counters are additive over trace concatenation. -/
theorem counts_append (l1 l2 : List Event) :
    countSecretRequests (l1 ++ l2) =
      countSecretRequests l1 + countSecretRequests l2 ∧
    countPassiveWaits (l1 ++ l2) =
      countPassiveWaits l1 + countPassiveWaits l2 := by
  constructor <;> simp [countSecretRequests, countPassiveWaits,
    List.filter_append]

/-- A trace of screenshots only has no secret request and no passive wait. -/
theorem counts_zero_of_screenshots (l : List Event)
    (h : ∀ ev ∈ l, ∃ r, ev = Event.screenshot r) :
    countSecretRequests l = 0 ∧ countPassiveWaits l = 0 := by
  constructor
  · unfold countSecretRequests
    rw [List.length_eq_zero, List.filter_eq_nil_iff]
    intro ev hev
    obtain ⟨r, rfl⟩ := h ev hev
    simp
  · unfold countPassiveWaits
    rw [List.length_eq_zero, List.filter_eq_nil_iff]
    intro ev hev
    obtain ⟨r, rfl⟩ := h ev hev
    simp

/-- The account-selection interstitial performs no secret request and no
passive wait. -/
theorem githubAccountSelect_counts (env : GEnv) :
    countSecretRequests (githubAccountSelect env) = 0 ∧
    countPassiveWaits (githubAccountSelect env) = 0 := by
  unfold githubAccountSelect
  rcases h1 : env.querySwitchForm with e | b
  · simp [countSecretRequests, countPassiveWaits]
  rcases b
  · simp [countSecretRequests, countPassiveWaits]
  rcases h2 : env.querySwitchBtn with e | b2
  · simp [countSecretRequests, countPassiveWaits]
  rcases b2
  · simp [countSecretRequests, countPassiveWaits]
  rcases h3 : env.clickSwitchBtn with e | u <;>
    simp [countSecretRequests, countPassiveWaits]

/-- The two-factor block requests the secret at most once and passively
waits at most once; with the OTP field present it requests exactly once,
and with no code obtained it also passively waits exactly once. -/
theorem githubTwoFactor_counts (env : GEnv) :
    (countSecretRequests (githubTwoFactor env) ≤ 1 ∧
      countPassiveWaits (githubTwoFactor env) ≤ 1) ∧
    (env.queryOtpInput = .ok true → gOtpCode env = none →
      githubTwoFactor env = [.secretRequest 5, .passiveWait 30000]) ∧
    (env.queryOtpInput = .ok true →
      countSecretRequests (githubTwoFactor env) = 1) := by
  unfold githubTwoFactor
  rcases h1 : env.queryOtpInput with e | b
  · refine ⟨by simp [countSecretRequests, countPassiveWaits], ?_, ?_⟩ <;>
      intro hq <;> simp at hq
  rcases b
  · refine ⟨by simp [countSecretRequests, countPassiveWaits], ?_, ?_⟩ <;>
      intro hq <;> simp at hq
  rcases h2 : gOtpCode env with _ | c
  · exact ⟨by simp [countSecretRequests, countPassiveWaits], fun _ _ => rfl,
      fun _ => by simp [countSecretRequests]⟩
  · rcases h3 : env.fillOtp with e | u
    · refine ⟨by simp [countSecretRequests, countPassiveWaits], ?_, ?_⟩
      · intro _ hn
        simp at hn
      · intro _
        simp [countSecretRequests]
    · refine ⟨by simp [countSecretRequests, countPassiveWaits], ?_, ?_⟩
      · intro _ hn
        simp at hn
      · intro _
        simp [countSecretRequests]

/-- Counter decomposition over `cons`. -/
theorem countSecret_cons (ev : Event) (l : List Event) :
    countSecretRequests (ev :: l) =
      countSecretRequests [ev] + countSecretRequests l := by
  rcases ev <;> simp [countSecretRequests, List.filter_cons] <;> omega

/-- Counter decomposition over `cons`. -/
theorem countPassive_cons (ev : Event) (l : List Event) :
    countPassiveWaits (ev :: l) =
      countPassiveWaits [ev] + countPassiveWaits l := by
  rcases ev <;> simp [countPassiveWaits, List.filter_cons] <;> omega

/-- The authorization navigation performs no secret request and no passive
wait. -/
theorem githubAuthNav_counts (env : GEnv) (o : String) :
    countSecretRequests (githubAuthNav env o).2 = 0 ∧
    countPassiveWaits (githubAuthNav env o).2 = 0 := by
  unfold githubAuthNav
  rcases h : env.authGoto with e | ropt
  · simp [countSecretRequests, countPassiveWaits]
  rcases hr : respInOrigin o ropt
  · rcases hq : env.authQueryBtn with e | b
    · simp [hr, hq, countSecretRequests, countPassiveWaits]
    rcases b
    · simp [hr, hq, countSecretRequests, countPassiveWaits]
    rcases hc : env.authClickBtn with e | u <;>
      simp [hr, hq, hc, countSecretRequests, countPassiveWaits]
  · simp [hr, countSecretRequests, countPassiveWaits]

/-- The login region's secret and passive-wait counters are zero on an
early credential failure and otherwise equal to the two-factor block's. -/
theorem githubLoginRegion_counts (env : GEnv) (p : String) :
    (countSecretRequests (githubLoginRegion env p).2 = 0 ∧
     countPassiveWaits (githubLoginRegion env p).2 = 0) ∨
    (countSecretRequests (githubLoginRegion env p).2 =
       countSecretRequests (githubTwoFactor env) ∧
     countPassiveWaits (githubLoginRegion env p).2 =
       countPassiveWaits (githubTwoFactor env)) := by
  unfold githubLoginRegion
  rcases h5 : env.gotoLogin with e | u
  · left; simp [countSecretRequests, countPassiveWaits]
  rcases h6 : env.fillUser with e | u2
  · left; simp [countSecretRequests, countPassiveWaits]
  rcases h7 : env.fillPass with e | u3
  · left; simp [countSecretRequests, countPassiveWaits]
  rcases h8 : env.clickSignin with e | u4
  · left; simp [countSecretRequests, countPassiveWaits]
  rcases h9 : env.saveStorage with e | u5 <;> right <;> constructor
  · rw [(counts_append _ _).1, countSecret_cons, (counts_append _ _).1,
      (githubAccountSelect_counts env).1]
    simp [countSecretRequests] <;> omega
  · rw [(counts_append _ _).2, countPassive_cons, (counts_append _ _).2,
      (githubAccountSelect_counts env).2]
    simp [countPassiveWaits] <;> omega
  · rw [(counts_append _ _).1, countSecret_cons, (counts_append _ _).1,
      (githubAccountSelect_counts env).1]
    simp [countSecretRequests] <;> omega
  · rw [(counts_append _ _).2, countPassive_cons, (counts_append _ _).2,
      (githubAccountSelect_counts env).2]
    simp [countPassiveWaits] <;> omega

/-- With the credential submission succeeding the login region's counters
are exactly the two-factor block's. -/
theorem githubLoginRegion_counts_ok (env : GEnv) (p : String)
    (h5 : env.gotoLogin = .ok ()) (h6 : env.fillUser = .ok ())
    (h7 : env.fillPass = .ok ()) (h8 : env.clickSignin = .ok ()) :
    countSecretRequests (githubLoginRegion env p).2 =
      countSecretRequests (githubTwoFactor env) ∧
    countPassiveWaits (githubLoginRegion env p).2 =
      countPassiveWaits (githubTwoFactor env) := by
  unfold githubLoginRegion
  rw [h5, h6, h7, h8]
  rcases h9 : env.saveStorage with e | u5 <;> constructor
  · rw [(counts_append _ _).1, countSecret_cons, (counts_append _ _).1,
      (githubAccountSelect_counts env).1]
    simp [countSecretRequests] <;> omega
  · rw [(counts_append _ _).2, countPassive_cons, (counts_append _ _).2,
      (githubAccountSelect_counts env).2]
    simp [countPassiveWaits] <;> omega
  · rw [(counts_append _ _).1, countSecret_cons, (counts_append _ _).1,
      (githubAccountSelect_counts env).1]
    simp [countSecretRequests] <;> omega
  · rw [(counts_append _ _).2, countPassive_cons, (counts_append _ _).2,
      (githubAccountSelect_counts env).2]
    simp [countPassiveWaits] <;> omega

/-- The fresh-login path's counters are bounded by the two-factor block's. -/
theorem githubFresh_counts (env : GEnv) (o p : String) :
    countSecretRequests (githubFresh env o p).2 ≤
      countSecretRequests (githubTwoFactor env) ∧
    countPassiveWaits (githubFresh env o p).2 ≤
      countPassiveWaits (githubTwoFactor env) := by
  unfold githubFresh
  rcases hgl : githubLoginRegion env p with ⟨or, evs⟩
  have hlr := githubLoginRegion_counts env p
  rw [hgl] at hlr
  dsimp only at hlr
  rcases or with _ | r
  · rcases hgn : githubAuthNav env o with ⟨or2, evs2⟩
    have han := githubAuthNav_counts env o
    rw [hgn] at han
    dsimp only at han
    obtain ⟨han1, han2⟩ := han
    rcases or2 with _ | r2
    · rcases hf : githubFinalize env o with ⟨rf, evs3⟩
      have hfe := githubFinalize_events env o
      rw [hf] at hfe
      have hfc := counts_zero_of_screenshots evs3 hfe
      show countSecretRequests ((evs ++ evs2) ++ evs3) ≤ _ ∧
        countPassiveWaits ((evs ++ evs2) ++ evs3) ≤ _
      constructor
      · rw [(counts_append _ _).1, (counts_append _ _).1]
        rcases hlr with ⟨ha, _⟩ | ⟨ha, _⟩ <;> omega
      · rw [(counts_append _ _).2, (counts_append _ _).2]
        rcases hlr with ⟨_, hb⟩ | ⟨_, hb⟩ <;> omega
    · show countSecretRequests (evs ++ evs2) ≤ _ ∧
        countPassiveWaits (evs ++ evs2) ≤ _
      constructor
      · rw [(counts_append _ _).1]
        rcases hlr with ⟨ha, _⟩ | ⟨ha, _⟩ <;> omega
      · rw [(counts_append _ _).2]
        rcases hlr with ⟨_, hb⟩ | ⟨_, hb⟩ <;> omega
  · show countSecretRequests evs ≤ _ ∧ countPassiveWaits evs ≤ _
    rcases hlr with ⟨ha, hb⟩ | ⟨ha, hb⟩ <;> constructor <;> omega

/-- With the credential submission succeeding, the fresh-login path's
counters are exactly the two-factor block's. -/
theorem githubFresh_counts_ok (env : GEnv) (o p : String)
    (h5 : env.gotoLogin = .ok ()) (h6 : env.fillUser = .ok ())
    (h7 : env.fillPass = .ok ()) (h8 : env.clickSignin = .ok ()) :
    countSecretRequests (githubFresh env o p).2 =
      countSecretRequests (githubTwoFactor env) ∧
    countPassiveWaits (githubFresh env o p).2 =
      countPassiveWaits (githubTwoFactor env) := by
  unfold githubFresh
  rcases hgl : githubLoginRegion env p with ⟨or, evs⟩
  have hlr := githubLoginRegion_counts_ok env p h5 h6 h7 h8
  rw [hgl] at hlr
  dsimp only at hlr
  rcases or with _ | r
  · rcases hgn : githubAuthNav env o with ⟨or2, evs2⟩
    have han := githubAuthNav_counts env o
    rw [hgn] at han
    dsimp only at han
    obtain ⟨han1, han2⟩ := han
    rcases or2 with _ | r2
    · rcases hf : githubFinalize env o with ⟨rf, evs3⟩
      have hfe := githubFinalize_events env o
      rw [hf] at hfe
      have hfc := counts_zero_of_screenshots evs3 hfe
      show countSecretRequests ((evs ++ evs2) ++ evs3) = _ ∧
        countPassiveWaits ((evs ++ evs2) ++ evs3) = _
      constructor
      · rw [(counts_append _ _).1, (counts_append _ _).1]
        omega
      · rw [(counts_append _ _).2, (counts_append _ _).2]
        omega
    · show countSecretRequests (evs ++ evs2) = _ ∧
        countPassiveWaits (evs ++ evs2) = _
      constructor
      · rw [(counts_append _ _).1]
        omega
      · rw [(counts_append _ _).2]
        omega
  · show countSecretRequests evs = _ ∧ countPassiveWaits evs = _
    exact hlr

/-- Every GitHub run requests the secret channel at most once and performs
the passive manual wait at most once. -/
theorem githubSignin_counts (env : GEnv) (o : String) (ac : List Cookie)
    (p : String) :
    countSecretRequests (githubSignin env o ac p).2 ≤ 1 ∧
    countPassiveWaits (githubSignin env o ac p).2 ≤ 1 := by
  have htf := (githubTwoFactor_counts env).1
  rcases githubSignin_trace env o ac p with h | h <;> rw [h]
  · simp [countSecretRequests, countPassiveWaits]
  · have hbody : countSecretRequests (githubBody env o p).2 ≤
        countSecretRequests (githubTwoFactor env) ∧
        countPassiveWaits (githubBody env o p).2 ≤
        countPassiveWaits (githubTwoFactor env) := by
      unfold githubBody
      rcases hli : (if env.cacheExists then githubProbe env o else false) <;>
        simp only [hli]
      · exact githubFresh_counts env o p
      · rcases hf : githubFinalize env o with ⟨rf, evs3⟩
        have hfe := githubFinalize_events env o
        rw [hf] at hfe
        have hfc := counts_zero_of_screenshots evs3 hfe
        constructor <;> simp only [if_true] <;> omega
    constructor
    · rw [(counts_append _ _).1]
      have : countSecretRequests [Event.pageClose, Event.contextClose] = 0 := by
        simp [countSecretRequests]
      omega
    · rw [(counts_append _ _).2]
      have : countPassiveWaits [Event.pageClose, Event.contextClose] = 0 := by
        simp [countPassiveWaits]
      omega

/-- The run is unaffected by the outcome of the post-OTP URL-change wait
(`except: pass` at src/sign_in_with_github.py lines 259-261). -/
theorem githubSignin_urlWaitIrrel (env : GEnv) (x y : Except String Unit)
    (o : String) (ac : List Cookie) (p : String) :
    githubSignin { env with waitUrlChange := x } o ac p =
    githubSignin { env with waitUrlChange := y } o ac p := by
  cases env
  rfl

/-- C7: the GitHub driver's second-factor handling (i) never requests the
secret channel more than once and never passively waits more than once in
any run; (ii) when the OTP field is present and the secret channel yields
no code within its 5-second deadline, it requests exactly once and performs
the 30-second passive manual wait exactly once, then continues; and
(iii) when a code is obtained and submitted, the outcome of the bounded
wait for the URL to change away from the pre-submission URL has no effect
on the run at all — a timeout there never aborts the flow. -/
theorem C7_second_factor_bounded (genv genvAny : GEnv) (go goA : String)
    (gac gacA : List Cookie) (gp gpA : String) (c e : String)
    (hg1 : genv.launch = .ok ()) (hg2 : genv.newContext = .ok ())
    (hg3 : genv.addCookies = .ok ()) (hg4 : genv.newPage = .ok ())
    (hgc : genv.cacheExists = false)
    (hg5 : genv.gotoLogin = .ok ()) (hg6 : genv.fillUser = .ok ())
    (hg7 : genv.fillPass = .ok ()) (hg8 : genv.clickSignin = .ok ())
    (hotp : genv.queryOtpInput = .ok true) :
    (countSecretRequests (githubSignin genvAny goA gacA gpA).2 ≤ 1 ∧
     countPassiveWaits (githubSignin genvAny goA gacA gpA).2 ≤ 1) ∧
    (gOtpCode genv = none →
      countSecretRequests (githubSignin genv go gac gp).2 = 1 ∧
      countPassiveWaits (githubSignin genv go gac gp).2 = 1) ∧
    (gOtpCode genv = some c →
      githubSignin { genv with waitUrlChange := .error e } go gac gp =
      githubSignin { genv with waitUrlChange := .ok () } go gac gp) := by
  refine ⟨githubSignin_counts genvAny goA gacA gpA, ?_, ?_⟩
  · intro hnone
    have htr := githubSignin_trace_ok genv go gac gp hg1 hg2 hg3 hg4
    have hbody := githubBody_noCache genv go gp hgc
    have hfr := githubFresh_counts_ok genv go gp hg5 hg6 hg7 hg8
    have htf := (githubTwoFactor_counts genv).2.1 hotp hnone
    rw [htr, hbody]
    have hc1 : countSecretRequests [Event.pageClose, Event.contextClose] = 0 := by
      simp [countSecretRequests]
    have hc2 : countPassiveWaits [Event.pageClose, Event.contextClose] = 0 := by
      simp [countPassiveWaits]
    have htfc : countSecretRequests (githubTwoFactor genv) = 1 ∧
        countPassiveWaits (githubTwoFactor genv) = 1 := by
      rw [htf]
      constructor <;> simp [countSecretRequests, countPassiveWaits]
    constructor
    · rw [(counts_append _ _).1]
      omega
    · rw [(counts_append _ _).2]
      omega
  · intro _
    exact githubSignin_urlWaitIrrel genv (.error e) (.ok ()) go gac gp

/-- A fresh-login GitHub environment with the OTP field present and the
secret channel yielding nothing before its deadline. -/
def gC7 : GEnv := { gFresh with queryOtpInput := .ok true, secretGet := .ok none }

/-- C7 witness: on the concrete 2FA environment the secret channel is
asked exactly once and the passive wait happens exactly once; on the happy
environment both counters stay at most one; the URL-change wait is
irrelevant. -/
theorem C7_second_factor_bounded_witness :
    (countSecretRequests
        (githubSignin gHappy "https://anyrouter.top" [] "cache.json").2 ≤ 1 ∧
     countPassiveWaits
        (githubSignin gHappy "https://anyrouter.top" [] "cache.json").2 ≤ 1) ∧
    (gOtpCode gC7 = none →
      countSecretRequests
        (githubSignin gC7 "https://anyrouter.top" [] "cache.json").2 = 1 ∧
      countPassiveWaits
        (githubSignin gC7 "https://anyrouter.top" [] "cache.json").2 = 1) ∧
    (gOtpCode gC7 = some "123456" →
      githubSignin { gC7 with waitUrlChange := .error "Timeout 10000ms" }
        "https://anyrouter.top" [] "cache.json" =
      githubSignin { gC7 with waitUrlChange := .ok () }
        "https://anyrouter.top" [] "cache.json") :=
  C7_second_factor_bounded gC7 gHappy "https://anyrouter.top" "https://anyrouter.top"
    [] [] "cache.json" "cache.json" "123456" "Timeout 10000ms"
    rfl rfl rfl rfl rfl rfl rfl rfl rfl rfl

/-- The run is unaffected by the outcome of the Cloudflare-challenge wait
(`except: pass` at src/sign_in_with_linuxdo.py lines 195-198). -/
theorem linuxdoSignin_challengeWaitIrrel (env : LEnv) (x y : Except String Unit)
    (o : String) (ac : List Cookie) (p : String) :
    linuxdoSignin { env with challengeWait := x } o ac p =
    linuxdoSignin { env with challengeWait := y } o ac p := by
  cases env
  rfl

/-- C8: on the forum-style driver, whenever the URL after credential
submission matches the challenge path, the run records the 60-second wait
for the consent-approval marker, the flow still advances to the
storage-save and consent/callback stages (the snapshot save still occurs
when it succeeds), and the outcome of the challenge wait — timeout
included — has no effect on the run's result. -/
theorem C8_challenge_timeout_nonfatal (lenv : LEnv) (lo : String)
    (lac : List Cookie) (lp e : String)
    (hl1 : lenv.launch = .ok ()) (hl2 : lenv.newContext = .ok ())
    (hl3 : lenv.addCookies = .ok ()) (hl4 : lenv.newPage = .ok ())
    (hlc : lenv.cacheExists = false)
    (hl5 : lenv.gotoLogin = .ok ()) (hl6 : lenv.fillUser = .ok ())
    (hl7 : lenv.fillPass = .ok ()) (hl8 : lenv.clickLogin = .ok ())
    (hch : strContains lenv.currentUrl "linux.do/challenge" = true) :
    Event.challengeWait 60000 ∈ (linuxdoSignin lenv lo lac lp).2 ∧
    (lenv.saveStorage = .ok () →
      Event.saveStorage lp ∈ (linuxdoSignin lenv lo lac lp).2) ∧
    (linuxdoSignin { lenv with challengeWait := .error e } lo lac lp =
     linuxdoSignin { lenv with challengeWait := .ok () } lo lac lp) := by
  have hreg : Event.challengeWait 60000 ∈ (linuxdoLoginRegion lenv lp).2 := by
    unfold linuxdoLoginRegion
    rw [hl5, hl6, hl7, hl8]
    rcases h9 : lenv.saveStorage with e9 | u9 <;> simp [hch]
  have hfreshMem : ∀ ev : Event, ev ∈ (linuxdoLoginRegion lenv lp).2 →
      ev ∈ (linuxdoFresh lenv lo lp).2 := by
    intro ev hev
    unfold linuxdoFresh
    rcases hgl : linuxdoLoginRegion lenv lp with ⟨or, evs⟩
    rw [hgl] at hev
    dsimp only at hev
    rcases or with _ | r
    · rcases hgn : linuxdoAuthNav lenv with ⟨or2, evs2⟩
      rcases or2 with _ | r2
      · rcases hf : linuxdoFinalize lenv lo with ⟨rf, evs3⟩
        exact List.mem_append_left _ (List.mem_append_left _ hev)
      · exact List.mem_append_left _ hev
    · exact hev
  have htr := linuxdoSignin_trace_ok lenv lo lac lp hl1 hl2 hl3 hl4
  have hbody := linuxdoBody_noCache lenv lo lp hlc
  refine ⟨?_, ?_, ?_⟩
  · rw [htr, hbody]
    exact List.mem_append_left _ (hfreshMem _ hreg)
  · intro h9
    have hs : Event.saveStorage lp ∈ (linuxdoLoginRegion lenv lp).2 := by
      rw [linuxdoLoginRegion_ok lenv lp hl5 hl6 hl7 hl8 h9]
      simp
    rw [htr, hbody]
    exact List.mem_append_left _ (hfreshMem _ hs)
  · exact linuxdoSignin_challengeWaitIrrel lenv (.error e) (.ok ()) lo lac lp

/-- A fresh-login LinuxDo environment whose post-submission URL sits on the
Cloudflare challenge path. -/
def lC8 : LEnv := { lFresh with currentUrl := "https://linux.do/challenge?return=/login" }

/-- C8 witness: on the concrete challenge environment the 60-second wait is
recorded, the snapshot save still happens, and a timing-out challenge wait
leaves the run unchanged. -/
theorem C8_challenge_timeout_nonfatal_witness :
    Event.challengeWait 60000 ∈
      (linuxdoSignin lC8 "https://anyrouter.top" [] "cache.json").2 ∧
    (lC8.saveStorage = .ok () →
      Event.saveStorage "cache.json" ∈
        (linuxdoSignin lC8 "https://anyrouter.top" [] "cache.json").2) ∧
    (linuxdoSignin { lC8 with challengeWait := .error "Timeout 60000ms" }
        "https://anyrouter.top" [] "cache.json" =
     linuxdoSignin { lC8 with challengeWait := .ok () }
        "https://anyrouter.top" [] "cache.json") :=
  C8_challenge_timeout_nonfatal lC8 "https://anyrouter.top" [] "cache.json"
    "Timeout 60000ms" rfl rfl rfl rfl rfl rfl rfl rfl rfl (by decide)
